import Mathlib

/-!
# UDP console (`static/ui/udp-console.bundle.js`), transport helper (`static/ui/app.js`) and offline shells (`static/ui/sw.js`, `sw.js`)

A shallow embedding of the browser console of the broadcast controller.
JavaScript values are a small universe of JSON-like values, objects are
association lists of own properties, and every asynchronous method is a pure
function from the inputs it reads (control values, the outcome of its network
call) to the list of effects it performs and the new control values.
-/

set_option maxRecDepth 100000

namespace UDPConsole

/-! ## JavaScript values -/

/-- JavaScript values reaching the console: `undefined`, and the JSON values
`null`, booleans, integral numbers (of magnitude below `2^53`), strings and
objects.  Arrays and non-integral numbers are not represented. -/
inductive JSVal where
  | undefined : JSVal
  | null : JSVal
  | bool (b : Bool) : JSVal
  | num (n : Int) : JSVal
  | str (s : String) : JSVal
  | obj (fields : List (String × JSVal)) : JSVal

/-- Own properties of an object, in insertion order. -/
abbrev JSObj := List (String × JSVal)

/-- Property names of an object. -/
def keys (o : JSObj) : List String := o.map Prod.fst

/-- An object has each property name once. -/
def WF (o : JSObj) : Prop := (keys o).Nodup

instance (o : JSObj) : Decidable (WF o) := by unfold WF; infer_instance

/-- Own property lookup. -/
def getOwn : JSObj → String → Option JSVal
  | [], _ => none
  | (k, v) :: rest, name => if k = name then some v else getOwn rest name

/-- Property read `o.name` (own properties only): `undefined` when absent. -/
def get (o : JSObj) (name : String) : JSVal := (getOwn o name).getD JSVal.undefined

/-- Property write `o[name] = v`: overwrite in place, or append a new property.
This is the write of an ordinary data property.  A write to the name
`__proto__` goes through the accessor of `Object.prototype` and creates no own
property: `set` does not describe it, and the statements on the values of
properties assume that no object has a property of that name. -/
def set : JSObj → String → JSVal → JSObj
  | [], name, v => [(name, v)]
  | (k, w) :: rest, name, v => if k = name then (k, v) :: rest else (k, w) :: set rest name v

/-- ToBoolean. -/
def truthy : JSVal → Bool
  | JSVal.undefined => false
  | JSVal.null => false
  | JSVal.bool b => b
  | JSVal.num n => n != 0
  | JSVal.str s => s != ""
  | JSVal.obj _ => true

/-- The operator `a || b`. -/
def orElse (a b : JSVal) : JSVal := if truthy a then a else b

/-- Own enumerable properties that `Object.assign` copies from a source: the
properties of an object, the indexed characters of a string, none for the
other primitives.  The characters of a string are taken one per code point:
this is what `Object.assign` copies only when every character lies in the Basic
Multilingual Plane, a character outside it being two indexed code units there;
the statements on the values of properties assume a source that is not a
string. -/
def ownEntries : JSVal → JSObj
  | JSVal.obj fields => fields
  | JSVal.str s => s.toList.enum.map (fun p => (toString p.1, JSVal.str (String.singleton p.2)))
  | _ => []

/-- One source of `Object.assign`: every own property is written to the target. -/
def assignFrom (target : JSObj) (src : JSObj) : JSObj :=
  src.foldl (fun t kv => set t kv.1 kv.2) target

/-- The call `Object.assign(target, ...sources)`. -/
def objectAssign (target : JSObj) (sources : List JSVal) : JSObj :=
  sources.foldl (fun t src => assignFrom t (ownEntries src)) target

/-- The State Mirror merge of `refreshState`:
`next = Object.assign({}, this.state, s || {})`. -/
def mergeState (state : JSObj) (s : JSVal) : JSObj :=
  objectAssign [] [JSVal.obj state, orElse s (JSVal.obj [])]

/-- The properties a snapshot carries: those of `s || {}`. -/
def snapshotEntries (s : JSVal) : JSObj := ownEntries (orElse s (JSVal.obj []))

/-! ## Strings and conversions of the host -/

/-- Read of `v.name` on a value that is not `null` or `undefined`: primitives
have none of the property names the console reads. -/
def prop (v : JSVal) (name : String) : JSVal :=
  match v with
  | JSVal.obj fields => get fields name
  | _ => JSVal.undefined

/-- Test for `null` and `undefined`, on which a property read throws. -/
def isNullish : JSVal → Bool
  | JSVal.undefined => true
  | JSVal.null => true
  | _ => false

/-- Strict equality `v === true`. -/
def isTrueVal : JSVal → Bool
  | JSVal.bool true => true
  | _ => false

/-- Strict equality `v === t` with a string literal `t`. -/
def strictEqStr (v : JSVal) (t : String) : Bool :=
  match v with
  | JSVal.str s => s == t
  | _ => false

/-- Test `typeof v === "number"`. -/
def isNumber : JSVal → Bool
  | JSVal.num _ => true
  | _ => false

/-- ToString, as applied by `String(v)`, by template literals and by string
concatenation. -/
def jsToString : JSVal → String
  | JSVal.undefined => "undefined"
  | JSVal.null => "null"
  | JSVal.bool true => "true"
  | JSVal.bool false => "false"
  | JSVal.num n => toString n
  | JSVal.str s => s
  | JSVal.obj _ => "[object Object]"

/-- Text of `Number(v)` inside a template literal.  The conversion of a
string to a number is the host's and is taken as the parameter `strNum`. -/
def numberText (strNum : String → String) : JSVal → String
  | JSVal.undefined => "NaN"
  | JSVal.null => "0"
  | JSVal.bool true => "1"
  | JSVal.bool false => "0"
  | JSVal.num n => toString n
  | JSVal.str s => strNum s
  | JSVal.obj _ => "NaN"

/-- White space and line terminators stripped by `trim` and skipped by `parseInt`. -/
def isJSSpace (c : Char) : Bool :=
  let n := c.toNat
  n == 9 || n == 10 || n == 11 || n == 12 || n == 13 || n == 32 || n == 160 ||
  n == 5760 || (8192 ≤ n && n ≤ 8202) || n == 8232 || n == 8233 || n == 8239 ||
  n == 8287 || n == 12288 || n == 65279

/-- The method `String.prototype.trim`. -/
def trim (s : String) : String :=
  String.mk ((s.toList.dropWhile isJSSpace).reverse.dropWhile isJSSpace).reverse

/-- Removal of the first occurrence of a character: `str.replace("%", "")`. -/
def removeFirst (c : Char) : List Char → List Char
  | [] => []
  | d :: rest => if d = c then rest else d :: removeFirst c rest

/-- Value of a run of decimal digits. -/
def digitsValue (ds : List Char) : Nat :=
  ds.foldl (fun acc d => acc * 10 + (d.toNat - 48)) 0

/-- The call `parseInt(str, 10)`; `none` is `NaN`.  Exact below `2^53`. -/
def parseInt10 (s : String) : Option Int :=
  let body := s.toList.dropWhile isJSSpace
  let neg := body.head? == some '-'
  let unsigned := if body.head? == some '-' || body.head? == some '+' then body.tail else body
  let ds := unsigned.takeWhile Char.isDigit
  if ds.isEmpty then none
  else some (if neg then - (digitsValue ds : Int) else (digitsValue ds : Int))

/-- Text of a number that may be `NaN`. -/
def numOrNaN : Option Int → String
  | none => "NaN"
  | some n => toString n

/-- Hexadecimal digit, upper case. -/
def hexDigit (n : Nat) : Char :=
  if n < 10 then Char.ofNat (48 + n) else Char.ofNat (55 + n)

/-- UTF-8 octets of a code point. -/
def utf8Bytes (n : Nat) : List Nat :=
  if n < 128 then [n]
  else if n < 2048 then [192 + n / 64, 128 + n % 64]
  else if n < 65536 then [224 + n / 4096, 128 + n / 64 % 64, 128 + n % 64]
  else [240 + n / 262144, 128 + n / 4096 % 64, 128 + n / 64 % 64, 128 + n % 64]

/-- Characters that `encodeURIComponent` leaves as they are. -/
def isUnreserved (c : Char) : Bool :=
  c.isAlphanum || c.toNat == 45 || c.toNat == 95 || c.toNat == 46 || c.toNat == 33 ||
  c.toNat == 126 || c.toNat == 42 || c.toNat == 39 || c.toNat == 40 || c.toNat == 41

/-- Percent-encoding of one character. -/
def encodeChar (c : Char) : List Char :=
  if isUnreserved c then [c]
  else (utf8Bytes c.toNat).flatMap (fun b => ['%', hexDigit (b / 16), hexDigit (b % 16)])

/-- The function `encodeURIComponent`. -/
def encodeURIComponent (s : String) : String :=
  String.mk (s.toList.flatMap encodeChar)

/-! ## Network and effects -/

/-- Body handed to `fetch`. -/
inductive Body where
  | empty : Body
  | json (v : JSVal) : Body
  | form (entries : List (String × String)) : Body
  | multipart (file : String) : Body

/-- Arguments of one `fetch` call. -/
structure Request where
  url : String
  method : String
  headers : List (String × String)
  body : Body

/-- What a settled `fetch` gives: the status, and what `text()` and `json()`
resolve to (`none` when the promise rejects). -/
structure Response where
  status : Nat
  text : Option String
  json : Option JSVal

/-- The getter `Response.ok`. -/
def Response.ok (r : Response) : Bool := 200 ≤ r.status && r.status ≤ 299

/-- Outcome of `await fetch(...)`: a rejection with its message, or a response. -/
inductive FetchOutcome where
  | rejected (message : String) : FetchOutcome
  | resolved (r : Response) : FetchOutcome

/-- Observable actions of the console. -/
inductive Effect where
  | fetch (req : Request) : Effect
  | windowOpen (url : String) (target : String) : Effect
  | alert (message : String) : Effect
  | refreshLater (delay : Nat) : Effect
  | confirm (message : String) : Effect

/-- Test for a blocking notice. -/
def isAlert : Effect → Bool
  | Effect.alert _ => true
  | _ => false

/-- Test for a scheduled State Mirror refresh. -/
def isRefresh : Effect → Bool
  | Effect.refreshLater _ => true
  | _ => false

/-- Test for a network request. -/
def isFetch : Effect → Bool
  | Effect.fetch _ => true
  | _ => false

/-! ## `translate` -/

/-- The helper `base` of `translate`: `String(s || "").split("-")[0].toLowerCase()`.
The host's `toLowerCase` is the parameter `lower`. -/
def base (lower : String → String) (s : String) : String :=
  lower (String.mk (s.toList.takeWhile (fun c => c != '-')))

/-- The request of the primary attempt. -/
def translateRequest (srcSel tgtSel text : String) : Request :=
  { url := "/translate", method := "POST",
    headers := [("Content-Type", "application/json")],
    body := Body.json (JSVal.obj [("q", JSVal.str text),
      ("source", orElse (JSVal.str srcSel) (JSVal.str "auto")),
      ("target", JSVal.str tgtSel), ("format", JSVal.str "text")]) }

/-- Address of the external web translator opened by the fallback. -/
def fallbackUrl (tgtSel text : String) : String :=
  "https://translate.google.com/?sl=auto&tl=" ++ encodeURIComponent tgtSel
    ++ "&text=" ++ encodeURIComponent text ++ "&op=translate"

/-- Result of the `try` block of `translate`: a value for the output field, or
a throw. -/
def primaryAttempt (text : String) : FetchOutcome → Option String
  | FetchOutcome.rejected _ => none
  | FetchOutcome.resolved r =>
    match r.json with
    | none => none
    | some j =>
      if truthy j && truthy (orElse (prop j "translatedText") (prop j "text")) then
        some (jsToString (orElse (prop j "translatedText") (prop j "text")))
      else if truthy j && isTrueVal (prop j "ok") && strictEqStr (prop j "via") "noop_same_lang" then
        some text
      else none

/-- The method `translate`: from the two selects, the message box, the output
field and the outcome of the `/translate` request, the new output field and the
effects performed. -/
def translate (lower : String → String) (srcSel tgtSel msg outBox : String)
    (net : FetchOutcome) : String × List Effect :=
  let text := trim msg
  if text = "" then (outBox, [])
  else if srcSel ≠ "" ∧ srcSel ≠ "auto" ∧ base lower srcSel = base lower tgtSel then (text, [])
  else
    match primaryAttempt text net with
    | some v => (v, [Effect.fetch (translateRequest srcSel tgtSel text)])
    | none => (outBox, [Effect.fetch (translateRequest srcSel tgtSel text),
        Effect.windowOpen (fallbackUrl tgtSel text) "_blank"])

/-! ## `postForm` -/

/-- The request built by `postForm`. -/
def postFormRequest (path : String) (kv : JSObj) : Request :=
  { url := path, method := "POST",
    headers := [("Content-Type", "application/x-www-form-urlencoded")],
    body := Body.form (kv.map (fun e => (e.1, jsToString e.2))) }

/-- The method `postForm`: the effects of one dispatch, given the outcome of
its request. -/
def postForm (path : String) (kv : JSObj) (net : FetchOutcome) : List Effect :=
  Effect.fetch (postFormRequest path kv) ::
    match net with
    | FetchOutcome.resolved _ => [Effect.refreshLater 400]
    | FetchOutcome.rejected message => [Effect.alert ("請求失敗：" ++ message)]

/-- Due times of the refreshes scheduled by effects performed at time `now`. -/
def timersAt (now : Nat) : List Effect → List Nat
  | [] => []
  | Effect.refreshLater delay :: rest => (now + delay) :: timersAt now rest
  | _ :: rest => timersAt now rest

/-- One dispatch: its arguments, the outcome of its request and the time at
which the request settled. -/
structure Dispatch where
  path : String
  kv : JSObj
  net : FetchOutcome
  settled : Nat

/-- Requests issued by a sequence of dispatches. -/
def requestsOf (ds : List Dispatch) : List Effect :=
  ds.flatMap (fun d => (postForm d.path d.kv d.net).filter isFetch)

/-- Due times of the refreshes scheduled by a sequence of dispatches. -/
def scheduledBy (ds : List Dispatch) : List Nat :=
  ds.flatMap (fun d => timersAt d.settled (postForm d.path d.kv d.net))

/-! ## `http` of `app.js` -/

/-- The options built by `http` from the stored token and its arguments. -/
def httpRequest (tok path method : String) (json : JSVal)
    (form : Option (List (String × String))) : Request :=
  let h0 : List (String × String) := if tok ≠ "" then [("X-Token", tok)] else []
  let h1 := if truthy json then h0 ++ [("Content-Type", "application/json")] else h0
  let b1 := if truthy json then Body.json json else Body.empty
  match form with
  | some entries =>
    { url := path, method := method,
      headers := h1.filter (fun e => e.1 != "Content-Type")
        ++ [("Content-Type", "application/x-www-form-urlencoded")],
      body := Body.form entries }
  | none => { url := path, method := method, headers := h1, body := b1 }

/-- The helper `http`: a thrown failure with its message, or the resolved value. -/
def http (net : FetchOutcome) : Except String JSVal :=
  match net with
  | FetchOutcome.rejected message => Except.error message
  | FetchOutcome.resolved r =>
    if !r.ok && r.status != 204 then
      let t := r.text.getD ""
      Except.error (if t ≠ "" then t else "HTTP " ++ toString r.status)
    else
      match r.json with
      | some j => Except.ok j
      | none => Except.ok JSVal.null

/-! ## `html` and `refreshState` -/

/-- Replacement of one character by `escape`. -/
def escapeChar (c : Char) : String :=
  if c = '&' then "&amp;"
  else if c = '<' then "&lt;"
  else if c = '>' then "&gt;"
  else if c.toNat = 34 then "&quot;"
  else if c.toNat = 39 then "&#39;"
  else String.singleton c

/-- The method `escape`. -/
def escape (v : JSVal) : String :=
  String.join ((jsToString v).toList.map escapeChar)

/-- The muted badge of the status header. -/
def mutedBadge : String :=
  "<span class=\"badge\" style=\"background:#ffecec;border-color:#ffcece;color:#8b1a1a\">靜音</span>"

/-- Text of the status region: up to the playing badge. -/
def statusSeg0 : String :=
  "<div class=\"status\">\n          <div class=\"left\">\n            <span class=\"badge\">狀態："

/-- Text of the status region: from the playing badge to the progress bar. -/
def statusSeg1 : String :=
  "</span>\n            <div class=\"progress-wrap\">\n              <progress value=\""

/-- Text of the status region: between the two progress values. -/
def statusSeg2 : String :=
  "\" max=\"100\"></progress>\n              <span class=\"mono\">"

/-- Text of the status region: from the progress text to the volume badge. -/
def statusSeg3 : String :=
  "%</span>\n            </div>\n            <span class=\"badge\">音量："

/-- Text of the status region: from the volume badge to the rate badge. -/
def statusSeg4 : String :=
  "%</span>\n            <span class=\"badge\">語速："

/-- Text of the status region: from the rate badge to the language badge. -/
def statusSeg5 : String :=
  "</span>\n            <span class=\"badge\">語言："

/-- Text of the status region: from the language badge to the gender badge. -/
def statusSeg6 : String :=
  "</span>\n            <span class=\"badge\">聲別："

/-- Text of the status region: after the gender badge. -/
def statusSeg7 : String :=
  "</span>\n            "

/-- Text of the status region: from the left part to the address of the tunnel. -/
def statusSeg8 : String :=
  "\n          </div>\n          <div class=\"right tight\">\n            <span class=\"hint\">ngrok：</span>\n            <span class=\"mono\">"

/-- Text of the status region: the end of the status region. -/
def statusSeg9 : String :=
  "</span>\n          </div>\n        </div>"

/-- The status region of the template of `html`: the element
`<div class="status">` with its interpolations. -/
def statusRegion (strNum : String → String) (s : JSObj) : String :=
  statusSeg0
  ++ escape (orElse (get s "playing") (JSVal.str "—")) ++ statusSeg1
  ++ numberText strNum (orElse (get s "progress") (JSVal.num 0)) ++ statusSeg2
  ++ numberText strNum (orElse (get s "progress") (JSVal.num 0)) ++ statusSeg3
  ++ numberText strNum (orElse (get s "volume") (JSVal.num 0)) ++ statusSeg4
  ++ escape (orElse (get s "rate") (JSVal.str "-")) ++ statusSeg5
  ++ escape (orElse (get s "lang") (JSVal.str "-")) ++ statusSeg6
  ++ escape (orElse (get s "gender") (JSVal.str "-")) ++ statusSeg7
  ++ (if truthy (get s "muted") then mutedBadge else "") ++ statusSeg8
  ++ (if truthy (get s "ngrok_url") then escape (get s "ngrok_url") else "（未啟動）")
  ++ statusSeg9

/-- The template of `html` before the status region. -/
def htmlOpen : String := "\n      <div class=\"app\">\n        "

/-- The template of `html` after the status region: the two columns of cards. -/
def htmlRest : String :=
  "\n\n        <div class=\"grid\">\n          <!-- Left Column -->\n          <div class=\"left-col\">\n            <div class=\"card\">\n              <h3>📝 傳送文字訊息</h3>\n              <div class=\"row\">\n                <textarea id=\"msg\" placeholder=\"要播報／顯示的內容…\"></textarea>\n              </div>\n              <div class=\"btns\">\n                <button id=\"btn-say\" class=\"primary\">🔊 直接播報</button>\n                <button id=\"btn-show\" class=\"\">📢 全螢幕顯示（有聲）</button>\n                <button id=\"btn-show-silent\" class=\"ghost\">🖥️ 全螢幕顯示（無聲）</button>\n              </div>\n\n              <div class=\"card\" style=\"margin-top:12px;\">\n                <h3>🌐 翻譯助手</h3>\n                <div class=\"two-col\">\n                  <div>\n                    <div class=\"row\">\n                      <label class=\"small\">來源語言</label>\n                      <select id=\"srcLang\">\n                        <option value=\"auto\">自動偵測</option>\n                        <option value=\"zh\">中文</option>\n                        <option value=\"en\">英文</option>\n                        <option value=\"ja\">日文</option>\n                        <option value=\"ko\">韓文</option>\n                        <option value=\"vi\">越南語</option>\n                        <option value=\"id\">印尼語</option>\n                      </select>\n                    </div>\n                  </div>\n                  <div>\n                    <div class=\"row\">\n                      <label class=\"small\">目標語言</label>\n                      <select id=\"tgtLang\">\n                        <option value=\"zh\">中文</option>\n                        <option value=\"en\">英文</option>\n                        <option value=\"ja\">日文</option>\n                        <option value=\"ko\">韓文</option>\n                        <option value=\"vi\">越南語</option>\n                        <option value=\"id\">印尼語</option>\n                      </select>\n                    </div>\n                  </div>\n                </div>\n                <div class=\"btns\" style=\"margin:8px 0 6px\">\n                  <button id=\"btn-translate\">↔️ 翻譯</button>\n                  <span class=\"hint\">優先使用 LibreTranslate；若失敗會開啟 Google 翻譯。</span>\n                </div>\n                <div class=\"row\">\n                  <textarea id=\"translated\" placeholder=\"翻譯結果…\" rows=\"4\"></textarea>\n                </div>\n                <div class=\"btns\">\n                  <button id=\"btn-apply\" class=\"\">⬆️ 套用翻譯 → 上方欄位</button>\n                </div>\n              </div>\n            </div>\n\n            <div class=\"card\" style=\"margin-top:12px;\">\n              <h3>🎵 MP3 / YouTube</h3>\n              <div class=\"two-col\">\n                <div>\n                  <div class=\"row\">\n                    <input id=\"mp3url\" type=\"text\" placeholder=\"貼上 MP3 或 YouTube 連結…\" />\n                  </div>\n                  <div class=\"btns\">\n                    <button id=\"btn-mp3url\" class=\"primary\">▶️ 播放音訊</button>\n                    <button id=\"btn-ytfs\">🎬 全螢幕播放（YouTube）</button>\n                    <button id=\"btn-ytclose\" class=\"ghost\">⏹ 關閉全螢幕</button>\n                  </div>\n                </div>\n                <div>\n                  <div class=\"file-row\">\n                    <input id=\"file\" type=\"file\" accept=\".mp3\" />\n                    <button id=\"btn-upload\">⬆️ 上傳 MP3</button>\n                  </div>\n                  <div class=\"row stretch\" style=\"margin-top:8px;\">\n                    <select id=\"fileList\"></select>\n                    <select id=\"fileAction\">\n                      <option value=\"play\">播放</option>\n                      <option value=\"download\">下載</option>\n                      <option value=\"delete\">刪除</option>\n                    </select>\n                    <button id=\"btn-file-go\">執行</button>\n                  </div>\n                  <div class=\"btns\" style=\"margin-top:8px;\">\n                    <button id=\"btn-mp3pause\">⏸ 暫停</button>\n                    <button id=\"btn-mp3resume\">▶️ 繼續</button>\n                    <button id=\"btn-mp3stop\" class=\"ghost\">⏹ 停止</button>\n                  </div>\n                </div>\n              </div>\n            </div>\n\n            <div class=\"card\" style=\"margin-top:12px;\">\n              <h3>⚡ 快速指令</h3>\n              <div class=\"btns\">\n                <button data-cmd=\"Bell:ClassStart\">🔔 上課鈴</button>\n                <button data-cmd=\"Bell:ClassEnd\">🔔 下課鈴</button>\n                <button data-cmd=\"Bell:EarthquakeAlarm\">🚨 地震警報</button>\n                <button data-cmd=\"CancelALL\" class=\"warn\">⏹ 強制取消</button>\n              </div>\n            </div>\n          </div>\n\n          <!-- Right Column -->\n          <div class=\"right-col\">\n            <div class=\"card\">\n              <h3>🗣️ 語音設定</h3>\n              <div class=\"row\">\n                <div class=\"select-inline\">\n                  <label class=\"small\">語言</label>\n                  <select id=\"lang\">\n                    <option value=\"zh-TW\">中文（台灣）</option>\n                    <option value=\"en-US\">英文（美國）</option>\n                    <option value=\"ja-JP\">日文（日本）</option>\n                    <option value=\"ko-KR\">韓文（韓國）</option>\n                    <option value=\"vi-VN\">越南語</option>\n                    <option value=\"id-ID\">印尼語</option>\n                    <option value=\"nan-TW\">台語</option>\n                  </select>\n                  <button id=\"btn-lang\">套用</button>\n                </div>\n              </div>\n              <div class=\"row\">\n                <div class=\"select-inline\">\n                  <label class=\"small\">聲別</label>\n                  <select id=\"gender\">\n                    <option value=\"female\">女聲</option>\n                    <option value=\"male\">男聲</option>\n                  </select>\n                  <button id=\"btn-gender\">套用</button>\n                </div>\n              </div>\n              <div class=\"row\">\n                <label class=\"small\" for=\"rate\">語速（-50%..0%）</label>\n                <input id=\"rate\" type=\"range\" min=\"-50\" max=\"0\" step=\"5\" value=\"-20\" />\n                <span id=\"rateVal\" class=\"mono\">-20%</span>\n              </div>\n              <div class=\"row\">\n                <label class=\"small\">播放前自動解除靜音</label>\n                <input id=\"autoUnmute\" type=\"checkbox\" />\n              </div>\n            </div>\n\n            <div class=\"card\" style=\"margin-top:12px;\">\n              <h3>🔊 音量 / 靜音</h3>\n              <div class=\"row\">\n                <input id=\"volume\" type=\"range\" min=\"0\" max=\"100\" value=\"80\" />\n                <span id=\"volVal\" class=\"mono\">80%</span>\n              </div>\n              <div class=\"btns\">\n                <button id=\"btn-volup\">＋5</button>\n                <button id=\"btn-voldown\">－5</button>\n                <button id=\"btn-mute\">🔇 靜音</button>\n                <button id=\"btn-unmute\" class=\"ghost\">🔊 解除靜音</button>\n              </div>\n            </div>\n\n            <div class=\"card\" style=\"margin-top:12px;\">\n              <h3>ℹ️ 系統資訊</h3>\n              <div class=\"row tight\"><span class=\"hint\">課表：</span> <span id=\"ttInfo\" class=\"mono\">—</span></div>\n              <div class=\"row tight\"><span class=\"hint\">Relay：</span> <span id=\"relayInfo\" class=\"mono\">—</span></div>\n              <div class=\"row\">\n                <a class=\"hint\" href=\"sched.html\">📚 開啟課表（進階）</a>\n              </div>\n            </div>\n          </div>\n        </div>\n      </div>\n    "

/-- The method `html`, for the component state `s`. -/
def html (strNum : String → String) (s : JSObj) : String :=
  htmlOpen ++ statusRegion strNum s ++ htmlRest

/-- Removal of a literal from the front of a text, when it is there. -/
def dropLit : List Char → List Char → Option (List Char)
  | [], text => some text
  | _ :: _, [] => none
  | c :: lit, d :: text => if c = d then dropLit lit text else none

/-- Lazy `[\s\S]*?` followed by the literal `close`: the shortest text ending
in `close`, from the start of the input. -/
def lazyUntil (close : List Char) : List Char → Option (List Char)
  | [] => if close.isEmpty then some [] else none
  | c :: text =>
    match dropLit close (c :: text) with
    | some _ => some close
    | none => (lazyUntil close text).map (fun m => c :: m)

/-- Match of `<div class="status">[\s\S]*?<\/div>` at the start of the input. -/
def matchStatusAt (text : List Char) : Option (List Char) :=
  match dropLit "<div class=\"status\">".toList text with
  | none => none
  | some after =>
    (lazyUntil "</div>".toList after).map (fun m => "<div class=\"status\">".toList ++ m)

/-- First element of `text.match(/<div class="status">[\s\S]*?<\/div>/)`: the
leftmost match; `none` when the result is `null`. -/
def matchStatus : List Char → Option (List Char)
  | [] => matchStatusAt []
  | c :: text =>
    match matchStatusAt (c :: text) with
    | some m => some m
    | none => matchStatus text

/-- Test that a literal fails to match at the start of a text, whatever
follows the text. -/
def clash : List Char → List Char → Bool
  | [], _ => false
  | _ :: _, [] => false
  | c :: lit, d :: text => if c = d then clash lit text else true

/-- Test that a literal fails to match at every position of a text. -/
def allClash (lit : List Char) : List Char → Bool
  | [] => true
  | c :: text => clash lit (c :: text) && allClash lit text

/-- The fragment that `refreshState` assigns to the `outerHTML` of the header. -/
def statusFragment (strNum : String → String) (s : JSObj) : Option String :=
  (matchStatus (html strNum s).toList).map String.mk

/-- The bound controls of the console. -/
inductive Control where
  | rate : Control
  | lang : Control
  | gender : Control
  | volume : Control
  | autoUnmute : Control
  deriving DecidableEq

/-- The component: its state and what its rendered controls hold.  A control
holds the value last given to it by the operator or by the script. -/
structure Console where
  state : JSObj
  rateVal : String
  rate : String
  lang : String
  gender : String
  volume : String
  volVal : String
  autoUnmute : Bool
  status : String
  ttInfo : String
  relayInfo : String
  active : Option Control

/-- The component as constructed and first rendered. -/
def initialState : JSObj :=
  [("volume", JSVal.num 80), ("rate", JSVal.str "-20%"), ("lang", JSVal.str "zh-TW"),
   ("gender", JSVal.str "female"), ("muted", JSVal.bool false), ("playing", JSVal.str "idle"),
   ("progress", JSVal.num 0), ("ngrok_url", JSVal.null),
   ("timetable", JSVal.obj [("enabled", JSVal.bool true), ("count", JSVal.num 0)]),
   ("relay", JSVal.obj []), ("auto_unmute_on_play", JSVal.bool true)]

/-- Projection of the snapshot `s` on the bound controls (the lines
`if ($("#rateVal") && s.rate) ...` to `$("#autoUnmute").checked = ...`). -/
def projectControls (s : JSVal) (c : Console) : Console :=
  let c1 := if truthy (prop s "rate") then { c with rateVal := jsToString (prop s "rate") } else c
  let c2 := if truthy (prop s "rate") then
      { c1 with rate := numOrNaN (parseInt10 (String.mk (removeFirst '%' (jsToString (prop s "rate")).toList))) }
    else c1
  let c3 := if truthy (prop s "lang") then { c2 with lang := jsToString (prop s "lang") } else c2
  let c4 := if truthy (prop s "gender") then
      { c3 with gender := if strictEqStr (prop s "gender") "male" then "male" else "female" }
    else c3
  let c5 := if isNumber (prop s "volume") then
      { c4 with volume := jsToString (prop s "volume"), volVal := jsToString (prop s "volume") ++ "%" }
    else c4
  { c5 with autoUnmute := truthy (prop s "auto_unmute_on_play") }

/-- The labels of the timetable and of the relay, written after the header. -/
def projectInfo (s : JSVal) (c : Console) : Console :=
  let c1 := if truthy (prop s "timetable") then
      { c with ttInfo := "啟用=" ++ (if truthy (prop (prop s "timetable") "enabled") then "是" else "否")
          ++ "，筆數=" ++ jsToString (prop (prop s "timetable") "count") }
    else c
  if truthy (prop s "relay") then
    { c1 with relayInfo := "port=" ++ jsToString (orElse (prop (prop s "relay") "port") (JSVal.str "-"))
        ++ ", last=" ++ jsToString (orElse (prop (prop s "relay") "last_cmd") (JSVal.str "-"))
        ++ ":" ++ jsToString (orElse (prop (prop s "relay") "last_result") (JSVal.str "-")) }
  else c1

/-- The swap of the header and what follows it in `refreshState`: the fragment
matched in `this.html()` replaces the header, then the two labels are written;
reading `[0]` of a `null` match throws and ends the refresh. -/
def swapHeader (strNum : String → String) (s : JSVal) (c : Console) : Console :=
  match statusFragment strNum c.state with
  | none => c
  | some fragment => projectInfo s { c with status := fragment }

/-- The body of `refreshState` once the snapshot `s` is parsed: merge, then
projection, header and labels.  On a `null` snapshot the first property read
throws after the merge. -/
def applySnapshot (strNum : String → String) (c : Console) (s : JSVal) : Console :=
  if isNullish s then { c with state := mergeState c.state s }
  else swapHeader strNum s (projectControls s { c with state := mergeState c.state s })

/-- The method `refreshState`, given the outcome of `fetch("/state")`.  A
rejected request or an unparsable body leaves the component as it is. -/
def refreshState (strNum : String → String) (c : Console) (net : FetchOutcome) : Console :=
  match net with
  | FetchOutcome.rejected _ => c
  | FetchOutcome.resolved r =>
    match r.json with
    | none => c
    | some s => applySnapshot strNum c s

/-- The component after `render`: the controls hold the values written in
the template, and no control has the focus. -/
def initialConsole (strNum : String → String) : Console :=
  { state := initialState, rateVal := "-20%", rate := "-20", lang := "zh-TW",
    gender := "female", volume := "80", volVal := "80%", autoUnmute := false,
    status := statusRegion strNum initialState, ttInfo := "—", relayInfo := "—",
    active := none }

/-- What a bound control holds. -/
def held (c : Console) : Control → String
  | Control.rate => c.rate
  | Control.lang => c.lang
  | Control.gender => c.gender
  | Control.volume => c.volume
  | Control.autoUnmute => if c.autoUnmute then "checked" else "unchecked"

/-! ## File list, upload and file actions -/

/-- A row of the file list: an `option` element. -/
structure FileOption where
  value : String
  text : String
  deriving DecidableEq

/-- The select `#fileList`: its rows and the index of the selected row. -/
structure FileSelect where
  options : List FileOption
  selectedIndex : Option Nat
  deriving DecidableEq

/-- The getter `sel.value`: the value of the selected row, or the empty string. -/
def FileSelect.value (sel : FileSelect) : String :=
  match sel.selectedIndex with
  | none => ""
  | some i => ((sel.options.get? i).map FileOption.value).getD ""

/-- The call `sel.appendChild(op)`: the row is added at the end; a drop-down
list with no selected row selects its first row. -/
def appendOption (sel : FileSelect) (op : FileOption) : FileSelect :=
  { options := sel.options ++ [op], selectedIndex := some (sel.selectedIndex.getD 0) }

/-- The parsed body of `/files`.  Arrays are not among `JSVal`: the body `j` is
given together with the elements of `j.files` when `Array.isArray(j.files)`
holds, and with `none` when it does not. -/
structure FilesBody where
  j : JSVal
  files : Option (List JSVal)

/-- Text of `(n/1024).toFixed(0)` for an integer `n`: the nearest integer, a
half rounded away from zero, the sign kept. -/
def kbOfInt (n : Int) : String :=
  if n < 0 then "-" ++ toString (((-n).toNat * 2 + 1024) / 2048)
  else toString ((n.toNat * 2 + 1024) / 2048)

/-- Text of `(v/1024).toFixed(0)`.  The conversion of a string is the host's
and is the parameter `kbStr`. -/
def kbText (kbStr : String → String) : JSVal → String
  | JSVal.undefined => "NaN"
  | JSVal.null => "0"
  | JSVal.bool _ => "0"
  | JSVal.num n => kbOfInt n
  | JSVal.str s => kbStr s
  | JSVal.obj _ => "NaN"

/-- The row built for one element `f` of `j.files`. -/
def fileRow (kbStr : String → String) (f : JSVal) : FileOption :=
  { value := jsToString (prop f "name"),
    text := jsToString (prop f "name") ++ "  (" ++ kbText kbStr (prop f "size") ++ " KB)" }

/-- The loop `j.files.forEach(...)`: rows are appended in order; reading
`f.name` of a `null` element throws, and the error carries the list as built so
far. -/
def appendRows (kbStr : String → String) : FileSelect → List JSVal → Except FileSelect FileSelect
  | sel, [] => Except.ok sel
  | sel, f :: rest =>
    if isNullish f then Except.error sel
    else appendRows kbStr (appendOption sel (fileRow kbStr f)) rest

/-- The row shown when the list has no usable result. -/
def noFilesRow : FileOption := { value := "", text := "（無檔案）" }

/-- The row added when the request or the rendering fails. -/
def listFailedRow : FileOption := { value := "", text := "（清單失敗）" }

/-- The request `fetch("/files")`. -/
def filesRequest : Request :=
  { url := "/files", method := "GET", headers := [], body := Body.empty }

/-- The method `refreshFiles`: the file list after the reload, from the list
before it and from what `fetch("/files")` and `r.json()` give (`none` when
either rejects). -/
def refreshFiles (kbStr : String → String) (sel : FileSelect)
    (result : Option FilesBody) : FileSelect :=
  match result with
  | none => appendOption sel listFailedRow
  | some b =>
    if !truthy b.j || !truthy (prop b.j "ok") then
      appendOption { options := [], selectedIndex := none } noFilesRow
    else
      match b.files with
      | none => appendOption { options := [], selectedIndex := none } noFilesRow
      | some items =>
        match appendRows kbStr { options := [], selectedIndex := none } items with
        | Except.error built => appendOption built listFailedRow
        | Except.ok built =>
          if built.value = "" ∧ built.options.length ≠ 0 then
            { built with selectedIndex := some 0 }
          else built

/-- The request of `upload` for the chosen file. -/
def uploadRequest (file : String) : Request :=
  { url := "/upload", method := "POST", headers := [], body := Body.multipart file }

/-- The method `upload`: its effects and the file list afterwards, from the
chosen file (`none` when no file is selected), the outcome of the request to
`/upload` and the result of the reload.  The messages of the host's errors for
an unparsable body and for a property read on `null` are `jsonMsg` and
`nullMsg`. -/
def upload (kbStr : String → String) (jsonMsg nullMsg : String) (sel : FileSelect)
    (file : Option String) (net : FetchOutcome) (filesResult : Option FilesBody) :
    List Effect × FileSelect :=
  match file with
  | none => ([Effect.alert "請先選取 .mp3 檔案"], sel)
  | some f =>
    match net with
    | FetchOutcome.rejected message =>
      ([Effect.fetch (uploadRequest f), Effect.alert ("上傳失敗：" ++ message)], sel)
    | FetchOutcome.resolved r =>
      match r.json with
      | none => ([Effect.fetch (uploadRequest f), Effect.alert ("上傳失敗：" ++ jsonMsg)], sel)
      | some j =>
        if isNullish j then
          ([Effect.fetch (uploadRequest f), Effect.alert ("上傳失敗：" ++ nullMsg)], sel)
        else if !truthy (prop j "ok") then
          ([Effect.fetch (uploadRequest f),
            Effect.alert ("上傳失敗：" ++ jsToString (orElse (prop j "error") (JSVal.str "upload fail")))],
           sel)
        else
          ([Effect.fetch (uploadRequest f), Effect.fetch filesRequest,
            Effect.alert ("上傳完成：" ++ jsToString (orElse (prop j "filename") (JSVal.str f)))],
           refreshFiles kbStr sel filesResult)

/-- Last segment of a path: `name.split("/").pop()`. -/
def baseName (name : String) : String :=
  String.mk (name.toList.reverse.takeWhile (fun c => c != '/')).reverse

/-- The request of the delete action. -/
def deleteRequest (name : String) : Request :=
  { url := "/delete", method := "POST",
    headers := [("Content-Type", "application/x-www-form-urlencoded")],
    body := Body.form [("name", baseName name)] }

/-- The method `fileAction`: its effects and the file list afterwards, from the
selected name, the selected action, the answer to `confirm`, the outcome of the
request it sends and the result of the reload. -/
def fileAction (kbStr : String → String) (sel : FileSelect) (name act : String)
    (confirmed : Bool) (net : FetchOutcome) (filesResult : Option FilesBody) :
    List Effect × FileSelect :=
  if name = "" then ([], sel)
  else if act = "play" then
    (postForm "/cmd" [("cmd", JSVal.str ("PlayMP3:" ++ name))] net, sel)
  else if act = "download" then
    ([Effect.windowOpen ("/download/" ++ encodeURIComponent (baseName name)) "_blank"], sel)
  else if act = "delete" then
    if !confirmed then ([Effect.confirm ("確定要刪除？\n" ++ name)], sel)
    else
      match net with
      | FetchOutcome.rejected _ =>
        ([Effect.confirm ("確定要刪除？\n" ++ name), Effect.fetch (deleteRequest name)], sel)
      | FetchOutcome.resolved _ =>
        ([Effect.confirm ("確定要刪除？\n" ++ name), Effect.fetch (deleteRequest name),
          Effect.fetch filesRequest], refreshFiles kbStr sel filesResult)
  else ([], sel)

/-- Test for a request to the given address with the given method. -/
def isFetchOf (method url : String) : Effect → Bool
  | Effect.fetch req => req.method == method && req.url == url
  | _ => false

/-- Test for a confirmation dialog. -/
def isConfirm : Effect → Bool
  | Effect.confirm _ => true
  | _ => false

/-! ## Markup neutralised by `escape` -/

/-- Test for a tag or attribute delimiter: `<`, `>`, `"` or the apostrophe. -/
def isDelimiter (c : Char) : Bool :=
  c == '<' || c == '>' || c.toNat == 34 || c.toNat == 39

/-- Test for one of the five characters that `escape` replaces. -/
def isSpecial (c : Char) : Bool :=
  c == '&' || isDelimiter c

/-- Test that a text starts with the rest of one of the entities `&amp;`,
`&lt;`, `&gt;`, `&quot;`, `&#39;`. -/
def startsWithEntity (text : List Char) : Bool :=
  (dropLit "amp;".toList text).isSome || (dropLit "lt;".toList text).isSome ||
  (dropLit "gt;".toList text).isSome || (dropLit "quot;".toList text).isSome ||
  (dropLit "#39;".toList text).isSome

/-- Test that every `&` of a text begins one of the five entities. -/
def entitiesOnly : List Char → Bool
  | [] => true
  | c :: rest => (c != '&' || startsWithEntity rest) && entitiesOnly rest

end UDPConsole

/-! # The offline shells (`static/ui/sw.js` and `sw.js`) -/

namespace OfflineShell

/-- A request seen by a `fetch` listener. -/
structure Req where
  method : String
  url : String
  deriving DecidableEq

/-- A response. -/
structure Resp where
  status : Nat
  statusText : String
  body : String
  deriving DecidableEq

/-- What the page gets for a request: the listener does not call `respondWith`
and the request passes through, or it responds with a response, or the promise
given to `respondWith` yields no response and the request fails. -/
inductive Reply where
  | passThrough : Reply
  | respond (r : Resp) : Reply
  | networkError : Reply
  deriving DecidableEq

/-- The fixed response of variant A when the network fails. -/
def unavailable : Resp :=
  { status := 503, statusText := "Service Unavailable", body := "請檢查網路連線 (Network Error)" }

/-- The `fetch` listener of `static/ui/sw.js` (variant A), from the request and
the outcome of `fetch(event.request)` (`none` when it rejects). -/
def fetchListenerA (req : Req) (net : Option Resp) : Reply :=
  if req.method ≠ "GET" then Reply.passThrough
  else
    match net with
    | some r => Reply.respond r
    | none => Reply.respond unavailable

/-- Test that a text starts with a literal. -/
def startsWith : List Char → List Char → Bool
  | [], _ => true
  | _ :: _, [] => false
  | c :: lit, d :: text => c == d && startsWith lit text

/-- The method `String.prototype.includes`. -/
def includes (lit : List Char) : List Char → Bool
  | [] => startsWith lit []
  | c :: text => startsWith lit (c :: text) || includes lit text

/-- The stored responses, keyed by request. -/
abbrev Cache := List (Req × Resp)

/-- The call `cache.put(request, response)`: the entry of the same address is
replaced.  The cache refuses a request whose method is not `GET` or whose
address is not an `http` or `https` one, and then stores nothing. -/
def cachePut (cache : Cache) (req : Req) (r : Resp) : Cache :=
  if req.method = "GET" ∧
      (startsWith "http://".toList req.url.toList || startsWith "https://".toList req.url.toList) then
    cache.filter (fun e => e.1.url != req.url) ++ [(req, r)]
  else cache

/-- The call `caches.match(request)`: the stored response of the same address,
for a `GET` request. -/
def cacheMatch (cache : Cache) (req : Req) : Option Resp :=
  if req.method = "GET" then (cache.find? (fun e => e.1.url == req.url)).map Prod.snd
  else none

/-- The `fetch` listener of `sw.js` (variant B), from the cache, the request
and the outcome of `fetch(event.request)` (`none` when it rejects): the reply
and the cache afterwards. -/
def fetchListenerB (cache : Cache) (req : Req) (net : Option Resp) : Reply × Cache :=
  if includes "/api/".toList req.url.toList then (Reply.passThrough, cache)
  else
    match net with
    | some r => (Reply.respond r, if r.status = 200 then cachePut cache req r else cache)
    | none =>
      match cacheMatch cache req with
      | some r => (Reply.respond r, cache)
      | none => (Reply.networkError, cache)

end OfflineShell

namespace UDPConsole

/-! ## Lemmas on objects -/

theorem getOwn_set_same (o : JSObj) (k : String) (v : JSVal) :
    getOwn (set o k v) k = some v := by
  induction o with
  | nil => simp [set, getOwn]
  | cons hd tl ih =>
    obtain ⟨a, w⟩ := hd
    by_cases h : a = k
    · simp [set, getOwn, h]
    · simp [set, getOwn, h, ih]

theorem getOwn_set_other (o : JSObj) (k k' : String) (v : JSVal) (h : k ≠ k') :
    getOwn (set o k v) k' = getOwn o k' := by
  induction o with
  | nil => simp [set, getOwn, h]
  | cons hd tl ih =>
    obtain ⟨a, w⟩ := hd
    by_cases ha : a = k
    · subst ha; simp [set, getOwn, h]
    · by_cases hb : a = k'
      · subst hb; simp [set, getOwn, ha]
      · simp [set, getOwn, ha, hb, ih]

theorem keys_set (o : JSObj) (k : String) (v : JSVal) :
    keys (set o k v) = if k ∈ keys o then keys o else keys o ++ [k] := by
  induction o with
  | nil => simp [set, keys]
  | cons hd tl ih =>
    obtain ⟨a, w⟩ := hd
    by_cases ha : a = k
    · subst ha; simp [set, keys]
    · have hk : ¬ k = a := fun e => ha e.symm
      simp only [keys] at ih
      by_cases hm : k ∈ List.map Prod.fst tl
      · simp [set, keys, ha, hk, hm, ih]
      · simp [set, keys, ha, hk, hm, ih]

theorem wf_set (o : JSObj) (k : String) (v : JSVal) (h : WF o) : WF (set o k v) := by
  unfold WF at *
  rw [keys_set]
  by_cases hm : k ∈ keys o
  · simp [hm, h]
  · simp only [hm, if_false]
    exact List.Nodup.append h (List.nodup_singleton k) (by simpa using hm)

theorem set_eq_self (o : JSObj) (k : String) (v : JSVal) (h : getOwn o k = some v) :
    set o k v = o := by
  induction o with
  | nil => simp [getOwn] at h
  | cons hd tl ih =>
    obtain ⟨a, w⟩ := hd
    by_cases ha : a = k
    · simp [getOwn, ha] at h
      simp [set, ha, h]
    · simp [getOwn, ha] at h
      simp [set, ha, ih h]

theorem wf_assignFrom (src t : JSObj) (h : WF t) : WF (assignFrom t src) := by
  induction src generalizing t with
  | nil => simpa [assignFrom] using h
  | cons hd tl ih =>
    simp only [assignFrom, List.foldl_cons]
    exact ih _ (wf_set t hd.1 hd.2 h)

theorem getOwn_assignFrom_absent (src t : JSObj) (name : String) (h : name ∉ keys src) :
    getOwn (assignFrom t src) name = getOwn t name := by
  induction src generalizing t with
  | nil => simp [assignFrom]
  | cons hd tl ih =>
    simp only [keys, List.map_cons, List.mem_cons, not_or] at h
    simp only [assignFrom, List.foldl_cons]
    have := ih (set t hd.1 hd.2) (by simpa [keys] using h.2)
    simp only [assignFrom] at this
    rw [this]
    exact getOwn_set_other t hd.1 name hd.2 (fun e => h.1 e.symm)

theorem getOwn_assignFrom_present (src t : JSObj) (name : String) (v : JSVal)
    (hwf : WF src) (h : getOwn src name = some v) :
    getOwn (assignFrom t src) name = some v := by
  induction src generalizing t with
  | nil => simp [getOwn] at h
  | cons hd tl ih =>
    obtain ⟨a, w⟩ := hd
    have hnd : a ∉ keys tl ∧ WF tl := by simpa [WF, keys] using hwf
    simp only [assignFrom, List.foldl_cons]
    by_cases ha : a = name
    · simp [getOwn, ha] at h
      subst ha; subst h
      have := getOwn_assignFrom_absent tl (set t a w) a hnd.1
      simp only [assignFrom] at this
      rw [this]
      exact getOwn_set_same t a w
    · simp [getOwn, ha] at h
      have := ih (set t a w) hnd.2 h
      simpa [assignFrom] using this

theorem assignFrom_self (src t : JSObj)
    (h : ∀ kv ∈ src, getOwn t kv.1 = some kv.2) : assignFrom t src = t := by
  induction src with
  | nil => simp [assignFrom]
  | cons hd tl ih =>
    simp only [assignFrom, List.foldl_cons]
    rw [set_eq_self t hd.1 hd.2 (h hd (List.mem_cons_self _ _))]
    exact ih (fun kv hkv => h kv (List.mem_cons_of_mem _ hkv))

theorem getOwn_of_mem (o : JSObj) (hwf : WF o) (kv : String × JSVal) (h : kv ∈ o) :
    getOwn o kv.1 = some kv.2 := by
  induction o with
  | nil => simp at h
  | cons hd tl ih =>
    obtain ⟨a, w⟩ := hd
    have hnd : a ∉ keys tl ∧ WF tl := by simpa [WF, keys] using hwf
    rcases List.mem_cons.mp h with e | e
    · subst e; simp [getOwn]
    · have hne : a ≠ kv.1 := by
        intro e'
        apply hnd.1
        rw [e']
        exact List.mem_map_of_mem Prod.fst e
      simp [getOwn, hne, ih hnd.2 e]

theorem assignFrom_nil_self (o : JSObj) (hwf : WF o) : assignFrom [] o = o := by
  suffices h : ∀ (pre : JSObj), WF (pre ++ o) → assignFrom pre o = pre ++ o by
    simpa using h [] (by simpa using hwf)
  clear hwf
  induction o with
  | nil => intro pre _; simp [assignFrom]
  | cons hd tl ih =>
    intro pre hw
    obtain ⟨a, w⟩ := hd
    simp only [assignFrom, List.foldl_cons]
    have hset : set pre a w = pre ++ [(a, w)] := by
      have hna : a ∉ keys pre := by
        have : (keys pre ++ a :: keys tl).Nodup := by simpa [WF, keys] using hw
        intro hm
        exact (List.nodup_append.mp this).2.2 hm (List.mem_cons_self _ _)
      clear hw ih
      induction pre with
      | nil => simp [set]
      | cons p ps ihp =>
        have : ¬ p.1 = a ∧ a ∉ keys ps := by
          simp only [keys, List.map_cons, List.mem_cons, not_or] at hna
          exact ⟨fun e => hna.1 e.symm, by simpa [keys] using hna.2⟩
        simp [set, this.1, ihp this.2]
    rw [hset]
    have := ih (pre ++ [(a, w)]) (by simpa using hw)
    simpa [assignFrom] using this

theorem mergeState_eq (p : JSObj) (s : JSVal) :
    mergeState p s = assignFrom (assignFrom [] p) (snapshotEntries s) := by
  simp [mergeState, objectAssign, snapshotEntries, ownEntries]

theorem wf_nil : WF [] := by simp [WF, keys]

/-! ## The State Mirror merge -/

/-- C1: partial-snapshot non-erasure.  For every prior state and every
snapshot that is not a string (both with distinct property names, none of them
`__proto__`), a field the snapshot omits has after the merge the value it had
before, a field the snapshot carries has the value of the snapshot, and merging
`{volume:60}` into `{volume:80, muted:false}` gives `{volume:60, muted:false}`. -/
theorem merge_partial_snapshot (p : JSObj) (s : JSVal)
    (hp : WF p) (hs : WF (snapshotEntries s))
    (_hstr : ∀ t, s ≠ JSVal.str t)
    (_hpp : "__proto__" ∉ keys p) (_hps : "__proto__" ∉ keys (snapshotEntries s)) :
    (∀ F, F ∉ keys (snapshotEntries s) →
      getOwn (mergeState p s) F = getOwn p F ∧ get (mergeState p s) F = get p F) ∧
    (∀ F v, getOwn (snapshotEntries s) F = some v → get (mergeState p s) F = v) ∧
    mergeState [("volume", JSVal.num 80), ("muted", JSVal.bool false)]
        (JSVal.obj [("volume", JSVal.num 60)])
      = [("volume", JSVal.num 60), ("muted", JSVal.bool false)] := by
  refine ⟨?_, ?_, rfl⟩
  · intro F hF
    have h : getOwn (mergeState p s) F = getOwn p F := by
      rw [mergeState_eq, getOwn_assignFrom_absent _ _ _ hF, assignFrom_nil_self p hp]
    exact ⟨h, by simp [get, h]⟩
  · intro F v hv
    rw [mergeState_eq]
    simp [get, getOwn_assignFrom_present _ (assignFrom [] p) F v hs hv]

/-- Witness of C1 on the state `{volume:80, muted:false}` and the snapshot
`{volume:60}`: `muted` is retained and `volume` is taken from the snapshot. -/
theorem merge_partial_snapshot_witness :
    WF [("volume", JSVal.num 80), ("muted", JSVal.bool false)] ∧
    WF (snapshotEntries (JSVal.obj [("volume", JSVal.num 60)])) ∧
    "__proto__" ∉ keys [("volume", JSVal.num 80), ("muted", JSVal.bool false)] ∧
    "__proto__" ∉ keys (snapshotEntries (JSVal.obj [("volume", JSVal.num 60)])) ∧
    get (mergeState [("volume", JSVal.num 80), ("muted", JSVal.bool false)]
        (JSVal.obj [("volume", JSVal.num 60)])) "muted"
      = get [("volume", JSVal.num 80), ("muted", JSVal.bool false)] "muted" ∧
    get (mergeState [("volume", JSVal.num 80), ("muted", JSVal.bool false)]
        (JSVal.obj [("volume", JSVal.num 60)])) "volume" = JSVal.num 60 :=
  ⟨by decide, by decide, by decide, by decide,
   ((merge_partial_snapshot [("volume", JSVal.num 80), ("muted", JSVal.bool false)]
      (JSVal.obj [("volume", JSVal.num 60)]) (by decide) (by decide)
      (fun _ h => JSVal.noConfusion h) (by decide) (by decide)).1 "muted" (by decide)).2,
   (merge_partial_snapshot [("volume", JSVal.num 80), ("muted", JSVal.bool false)]
      (JSVal.obj [("volume", JSVal.num 60)]) (by decide) (by decide)
      (fun _ h => JSVal.noConfusion h) (by decide) (by decide)).2.1 "volume"
      (JSVal.num 60) rfl⟩

/-- C2: merge idempotence.  Merging a snapshot (with distinct property names)
into a state twice gives the same state as merging it once. -/
theorem merge_idempotent (p : JSObj) (s : JSVal) (hs : WF (snapshotEntries s)) :
    mergeState (mergeState p s) s = mergeState p s := by
  have hq : WF (mergeState p s) := by
    rw [mergeState_eq]
    exact wf_assignFrom _ _ (wf_assignFrom _ _ wf_nil)
  rw [mergeState_eq (mergeState p s) s, assignFrom_nil_self _ hq]
  apply assignFrom_self
  intro kv hkv
  rw [mergeState_eq]
  exact getOwn_assignFrom_present _ _ kv.1 kv.2 hs (getOwn_of_mem _ hs kv hkv)

/-- Witness of C2 on the initial state and the snapshot `{volume:60, muted:true}`. -/
theorem merge_idempotent_witness :
    WF (snapshotEntries (JSVal.obj [("volume", JSVal.num 60), ("muted", JSVal.bool true)])) ∧
    mergeState (mergeState initialState
        (JSVal.obj [("volume", JSVal.num 60), ("muted", JSVal.bool true)]))
        (JSVal.obj [("volume", JSVal.num 60), ("muted", JSVal.bool true)])
      = mergeState initialState
        (JSVal.obj [("volume", JSVal.num 60), ("muted", JSVal.bool true)]) :=
  ⟨by decide, merge_idempotent initialState
    (JSVal.obj [("volume", JSVal.num 60), ("muted", JSVal.bool true)]) (by decide)⟩

/-! ## Translation Assist -/

/-- C3: family no-op rule.  For every message whose trimmed text is non-empty
and every source and target where a source is selected (the select holds a
value, which is never empty), the source is not `"auto"` and it has the family
of the target, `translate` sets the output field to the trimmed text and
performs no effect at all: no request, no external translator. -/
theorem translate_family_noop (lower : String → String)
    (srcSel tgtSel msg outBox : String) (net : FetchOutcome)
    (htext : trim msg ≠ "") (hsel : srcSel ≠ "") (hauto : srcSel ≠ "auto")
    (hfam : base lower srcSel = base lower tgtSel) :
    translate lower srcSel tgtSel msg outBox net = (trim msg, []) := by
  simp [translate, htext, hsel, hauto, hfam]

/-- Witness of C3: source `en-US`, target `en-GB`, message ` Hello `. -/
theorem translate_family_noop_witness :
    translate (fun s => String.mk (s.toList.map Char.toLower)) "en-US" "en-GB" " Hello " ""
        (FetchOutcome.rejected "offline") = ("Hello", []) :=
  translate_family_noop (fun s => String.mk (s.toList.map Char.toLower)) "en-US" "en-GB"
    " Hello " "" (FetchOutcome.rejected "offline")
    (by decide) (by decide) (by decide) (by decide)

/-- C4: fallback trigger.  When the primary attempt is reached (non-empty
trimmed text, no family no-op) and fails (the request rejects, the body does
not parse, the body is `null`, or the body is `{error: x}` for any `x`),
`translate` leaves the output field as it was and, after the one request, opens
the external translator once, in a new context, at the address built from the
target language and the text. -/
theorem translate_fallback (lower : String → String)
    (srcSel tgtSel msg outBox : String) (net : FetchOutcome)
    (htext : trim msg ≠ "")
    (hreach : ¬ (srcSel ≠ "" ∧ srcSel ≠ "auto" ∧ base lower srcSel = base lower tgtSel))
    (hfail : (∃ m, net = FetchOutcome.rejected m) ∨
      (∃ r, net = FetchOutcome.resolved r ∧
        (r.json = none ∨ r.json = some JSVal.null ∨
          ∃ x, r.json = some (JSVal.obj [("error", x)])))) :
    translate lower srcSel tgtSel msg outBox net
      = (outBox, [Effect.fetch (translateRequest srcSel tgtSel (trim msg)),
          Effect.windowOpen ("https://translate.google.com/?sl=auto&tl="
            ++ encodeURIComponent tgtSel ++ "&text=" ++ encodeURIComponent (trim msg)
            ++ "&op=translate") "_blank"]) := by
  have hp : primaryAttempt (trim msg) net = none := by
    rcases hfail with ⟨m, rfl⟩ | ⟨r, rfl, hj | hj | ⟨x, hj⟩⟩
    · rfl
    · simp [primaryAttempt, hj]
    · simp [primaryAttempt, hj, truthy]
    · simp [primaryAttempt, hj, truthy, prop, get, getOwn, orElse, isTrueVal]
  unfold translate
  simp only [htext, hreach, if_false, hp, fallbackUrl]

/-- Witness of C4: the primary endpoint answers `{error:"x"}`. -/
theorem translate_fallback_witness :
    translate id "auto" "en" "你好" "old"
        (FetchOutcome.resolved (Response.mk 200 none
          (some (JSVal.obj [("error", JSVal.str "x")]))))
      = ("old", [Effect.fetch (translateRequest "auto" "en" (trim "你好")),
          Effect.windowOpen ("https://translate.google.com/?sl=auto&tl="
            ++ encodeURIComponent "en" ++ "&text=" ++ encodeURIComponent (trim "你好")
            ++ "&op=translate") "_blank"]) :=
  translate_fallback id "auto" "en" "你好" "old"
    (FetchOutcome.resolved (Response.mk 200 none
      (some (JSVal.obj [("error", JSVal.str "x")]))))
    (by decide) (by decide)
    (Or.inr ⟨_, rfl, Or.inr (Or.inr ⟨JSVal.str "x", rfl⟩)⟩)

/-! ## Command Dispatcher -/

/-- C5 as stated fails: a dispatch answered with status 500, a non-success
status, shows no notice and schedules a refresh. -/
theorem postForm_failure_counterexample :
    ¬ (∀ (path : String) (kv : JSObj) (net : FetchOutcome),
        ((∃ m, net = FetchOutcome.rejected m) ∨
          (∃ r, net = FetchOutcome.resolved r ∧ r.ok = false)) →
        (postForm path kv net).countP isAlert = 1 ∧
        (postForm path kv net).countP isFetch = 1 ∧
        (postForm path kv net).countP isRefresh = 0) := by
  intro h
  have h1 := h "/cmd" [("cmd", JSVal.str "Mute")]
    (FetchOutcome.resolved (Response.mk 500 (some "Internal Server Error") none))
    (Or.inr ⟨_, rfl, by decide⟩)
  revert h1
  decide

/-- C5, amended: for every dispatch whose request ends in a network error (the
`fetch` rejects with message `m`), `postForm` issues its one request, then shows
one blocking notice carrying `m`, and schedules no refresh. -/
theorem postForm_network_error (path : String) (kv : JSObj) (m : String) :
    postForm path kv (FetchOutcome.rejected m)
      = [Effect.fetch (postFormRequest path kv), Effect.alert ("請求失敗：" ++ m)] ∧
    (postForm path kv (FetchOutcome.rejected m)).countP isAlert = 1 ∧
    (postForm path kv (FetchOutcome.rejected m)).countP isFetch = 1 ∧
    (postForm path kv (FetchOutcome.rejected m)).countP isRefresh = 0 := by
  refine ⟨rfl, ?_, ?_, ?_⟩ <;> simp [postForm, isAlert, isFetch, isRefresh]

theorem postForm_resolved (path : String) (kv : JSObj) (r : Response) :
    postForm path kv (FetchOutcome.resolved r)
      = [Effect.fetch (postFormRequest path kv), Effect.refreshLater 400] := rfl

theorem scheduledBy_cons (d : Dispatch) (ds : List Dispatch) :
    scheduledBy (d :: ds) = timersAt d.settled (postForm d.path d.kv d.net) ++ scheduledBy ds := by
  simp [scheduledBy]

theorem requestsOf_cons (d : Dispatch) (ds : List Dispatch) :
    requestsOf (d :: ds) = (postForm d.path d.kv d.net).filter isFetch ++ requestsOf ds := by
  simp [requestsOf]

/-- C6: optimistic refresh scheduling.  When every dispatch of a sequence has
its request answered, each dispatch issues one POST of its form-encoded payload
and then schedules one refresh with a delay of 400 ms; the sequence issues as
many requests and schedules as many refreshes as there are dispatches, each
refresh due 400 ms after its dispatch settled, the last one 400 ms after the
last dispatch settled. -/
theorem postForm_schedules_refresh (ds : List Dispatch)
    (h : ∀ d ∈ ds, ∃ r, d.net = FetchOutcome.resolved r) :
    (∀ d ∈ ds, postForm d.path d.kv d.net
      = [Effect.fetch (Request.mk d.path "POST"
            [("Content-Type", "application/x-www-form-urlencoded")]
            (Body.form (d.kv.map (fun e => (e.1, jsToString e.2))))),
         Effect.refreshLater 400]) ∧
    requestsOf ds = ds.map (fun d => Effect.fetch (postFormRequest d.path d.kv)) ∧
    scheduledBy ds = ds.map (fun d => d.settled + 400) ∧
    (scheduledBy ds).length = ds.length ∧
    (scheduledBy ds).getLast? = ds.getLast?.map (fun d => d.settled + 400) := by
  have hs : scheduledBy ds = ds.map (fun d => d.settled + 400) := by
    induction ds with
    | nil => rfl
    | cons d ds ih =>
      obtain ⟨r, hr⟩ := h d (List.mem_cons_self _ _)
      rw [scheduledBy_cons, ih (fun e he => h e (List.mem_cons_of_mem _ he)), hr]
      rfl
  have hq : requestsOf ds = ds.map (fun d => Effect.fetch (postFormRequest d.path d.kv)) := by
    clear hs
    induction ds with
    | nil => rfl
    | cons d ds ih =>
      obtain ⟨r, hr⟩ := h d (List.mem_cons_self _ _)
      rw [requestsOf_cons, ih (fun e he => h e (List.mem_cons_of_mem _ he)), hr]
      rfl
  refine ⟨?_, hq, hs, ?_, ?_⟩
  · intro d hd
    obtain ⟨r, hr⟩ := h d hd
    rw [hr]
    rfl
  · rw [hs, List.length_map]
  · rw [hs, List.getLast?_map]

/-- Witness of C6: two answered dispatches settling at 1000 ms and 1100 ms
schedule refreshes due at 1400 ms and 1500 ms. -/
theorem postForm_schedules_refresh_witness :
    scheduledBy
      [Dispatch.mk "/cmd" [("cmd", JSVal.str "Mute")]
          (FetchOutcome.resolved (Response.mk 200 none none)) 1000,
       Dispatch.mk "/setvol" [("vol", JSVal.str "60")]
          (FetchOutcome.resolved (Response.mk 200 none none)) 1100]
      = [1400, 1500] :=
  (postForm_schedules_refresh
      [Dispatch.mk "/cmd" [("cmd", JSVal.str "Mute")]
          (FetchOutcome.resolved (Response.mk 200 none none)) 1000,
       Dispatch.mk "/setvol" [("vol", JSVal.str "60")]
          (FetchOutcome.resolved (Response.mk 200 none none)) 1100]
      (by
        intro d hd
        simp only [List.mem_cons, List.mem_singleton, List.not_mem_nil, or_false] at hd
        rcases hd with rfl | rfl <;> exact ⟨_, rfl⟩)).2.2.1

/-! ## Transport -/

/-- C10: outcome of `http` on a response.  It fails exactly when the status is
a non-success status other than 204; the message of the failure is the body
text when that text is non-empty and `HTTP ` followed by the status otherwise;
in every other case it resolves to the parsed body, or to `null` when the body
does not parse, as for a 204 without content. -/
theorem http_outcome (r : Response) :
    ((∃ m, http (FetchOutcome.resolved r) = Except.error m) ↔
      (r.ok = false ∧ r.status ≠ 204)) ∧
    (∀ t, r.ok = false → r.status ≠ 204 → r.text = some t → t ≠ "" →
      http (FetchOutcome.resolved r) = Except.error t) ∧
    (r.ok = false → r.status ≠ 204 → (r.text = none ∨ r.text = some "") →
      http (FetchOutcome.resolved r) = Except.error ("HTTP " ++ toString r.status)) ∧
    (∀ j, ¬ (r.ok = false ∧ r.status ≠ 204) → r.json = some j →
      http (FetchOutcome.resolved r) = Except.ok j) ∧
    (¬ (r.ok = false ∧ r.status ≠ 204) → r.json = none →
      http (FetchOutcome.resolved r) = Except.ok JSVal.null) ∧
    (r.status = 204 → r.json = none →
      http (FetchOutcome.resolved r) = Except.ok JSVal.null) := by
  refine ⟨?_, ?_, ?_, ?_, ?_, ?_⟩
  · constructor
    · rintro ⟨m, hm⟩
      by_contra hc
      have hc2 : (!r.ok && r.status != 204) = false := by
        rcases Bool.eq_false_or_eq_true r.ok with ho | ho
        · simp [ho]
        · by_cases hst : r.status = 204
          · simp [hst]
          · exact absurd ⟨ho, hst⟩ hc
      cases hj : r.json <;> simp [http, hc2, hj] at hm
    · rintro ⟨ho, hst⟩
      have hb : (!r.ok && r.status != 204) = true := by simp [ho, hst]
      refine ⟨if r.text.getD "" ≠ "" then r.text.getD "" else "HTTP " ++ toString r.status, ?_⟩
      simp only [http, hb, if_true]
  · intro t ho hst ht hne
    simp [http, ho, hst, ht, hne]
  · intro ho hst ht
    rcases ht with ht | ht <;> simp [http, ho, hst, ht]
  · intro j hc hj
    have hc2 : (!r.ok && r.status != 204) = false := by
      rcases Bool.eq_false_or_eq_true r.ok with ho | ho
      · simp [ho]
      · by_cases hst : r.status = 204
        · simp [hst]
        · exact absurd ⟨ho, hst⟩ hc
    simp [http, hc2, hj]
  · intro hc hj
    have hc2 : (!r.ok && r.status != 204) = false := by
      rcases Bool.eq_false_or_eq_true r.ok with ho | ho
      · simp [ho]
      · by_cases hst : r.status = 204
        · simp [hst]
        · exact absurd ⟨ho, hst⟩ hc
    simp [http, hc2, hj]
  · intro hst hj
    simp [http, hst, hj]

/-- Witness of C10: a 500 with the body `boom` fails with `boom`, a 404 with an
empty body fails with `HTTP 404`, and a 204 without content resolves to `null`. -/
theorem http_outcome_witness :
    http (FetchOutcome.resolved (Response.mk 500 (some "boom") none)) = Except.error "boom" ∧
    http (FetchOutcome.resolved (Response.mk 404 (some "") none)) = Except.error "HTTP 404" ∧
    http (FetchOutcome.resolved (Response.mk 204 (some "") none)) = Except.ok JSVal.null :=
  ⟨(http_outcome (Response.mk 500 (some "boom") none)).2.1 "boom"
      (by decide) (by decide) rfl (by decide),
   (http_outcome (Response.mk 404 (some "") none)).2.2.1
      (by decide) (by decide) (Or.inr rfl),
   (http_outcome (Response.mk 204 (some "") none)).2.2.2.2.2 rfl rfl⟩

/-! ## State Mirror projection -/

theorem projectInfo_controls (s : JSVal) (c : Console) :
    (projectInfo s c).rate = c.rate ∧ (projectInfo s c).lang = c.lang ∧
    (projectInfo s c).gender = c.gender ∧ (projectInfo s c).volume = c.volume ∧
    (projectInfo s c).autoUnmute = c.autoUnmute ∧ (projectInfo s c).active = c.active ∧
    (projectInfo s c).state = c.state := by
  unfold projectInfo
  split_ifs <;> simp

theorem projectControls_fields (s : JSVal) (c : Console) :
    (projectControls s c).rate
      = (if truthy (prop s "rate") then
          numOrNaN (parseInt10 (String.mk (removeFirst '%' (jsToString (prop s "rate")).toList)))
        else c.rate) ∧
    (projectControls s c).lang
      = (if truthy (prop s "lang") then jsToString (prop s "lang") else c.lang) ∧
    (projectControls s c).gender
      = (if truthy (prop s "gender") then
          (if strictEqStr (prop s "gender") "male" then "male" else "female")
        else c.gender) ∧
    (projectControls s c).volume
      = (if isNumber (prop s "volume") then jsToString (prop s "volume") else c.volume) ∧
    (projectControls s c).autoUnmute = truthy (prop s "auto_unmute_on_play") ∧
    (projectControls s c).active = c.active ∧
    (projectControls s c).state = c.state := by
  unfold projectControls
  split_ifs <;> simp

theorem swapHeader_controls (strNum : String → String) (s : JSVal) (c : Console) :
    (swapHeader strNum s c).rate = c.rate ∧ (swapHeader strNum s c).lang = c.lang ∧
    (swapHeader strNum s c).gender = c.gender ∧ (swapHeader strNum s c).volume = c.volume ∧
    (swapHeader strNum s c).autoUnmute = c.autoUnmute ∧ (swapHeader strNum s c).active = c.active ∧
    (swapHeader strNum s c).state = c.state := by
  unfold swapHeader
  generalize statusFragment strNum c.state = f
  cases f with
  | none => simp
  | some fragment => exact projectInfo_controls s { c with status := fragment }

theorem refreshState_resolved (strNum : String → String) (c : Console) (r : Response)
    (s : JSVal) (hj : r.json = some s) (hs : isNullish s = false) :
    refreshState strNum c (FetchOutcome.resolved r)
      = swapHeader strNum s (projectControls s { c with state := mergeState c.state s }) := by
  obtain ⟨st, tx, js⟩ := r
  cases hj
  show applySnapshot strNum c s = _
  unfold applySnapshot
  rw [if_neg (by rw [hs]; exact Bool.false_ne_true)]

theorem getOwn_absent (o : JSObj) (name : String) (h : name ∉ keys o) : getOwn o name = none := by
  induction o with
  | nil => rfl
  | cons hd tl ih =>
    obtain ⟨a, w⟩ := hd
    simp only [keys, List.map_cons, List.mem_cons, not_or] at h
    have hne : ¬ a = name := fun e => h.1 e.symm
    simp [getOwn, hne, ih (by simpa [keys] using h.2)]

theorem getOwn_mergeState_absent (p : JSObj) (s : JSVal) (F : String) (hp : WF p)
    (hF : F ∉ keys (snapshotEntries s)) : getOwn (mergeState p s) F = getOwn p F := by
  rw [mergeState_eq, getOwn_assignFrom_absent _ _ _ hF, assignFrom_nil_self p hp]

/-- C7 as stated fails: the rate slider has the focus and holds `-30`; a
refresh whose snapshot is `{rate:"-10%"}` overwrites it with `-10`. -/
theorem refresh_focus_counterexample :
    ¬ (∀ (strNum : String → String) (c : Console) (net : FetchOutcome) (ctl : Control),
        c.active = some ctl → held (refreshState strNum c net) ctl = held c ctl) := by
  intro h
  have h1 := h id { initialConsole id with rate := "-30", active := some Control.rate }
    (FetchOutcome.resolved (Response.mk 200 none (some (JSVal.obj [("rate", JSVal.str "-10%")]))))
    Control.rate rfl
  rw [refreshState_resolved id _ _ (JSVal.obj [("rate", JSVal.str "-10%")]) rfl rfl] at h1
  simp only [held] at h1
  rw [(swapHeader_controls _ _ _).1, (projectControls_fields _ _).1] at h1
  revert h1
  decide

/-- C7, amended: the element that has the focus plays no part in a refresh.
For every component, whichever control is active, a refresh that receives a
snapshot other than `null` overwrites the rate slider, the language select and
the gender select when the snapshot carries a truthy `rate`, `lang`, `gender`,
the volume slider when the `volume` of the snapshot is a number, and the
auto-unmute checkbox when the snapshot carries `auto_unmute_on_play`; the
first four are left as they were when the snapshot carries no such value. -/
theorem refresh_overwrites_controls (strNum : String → String) (c : Console)
    (a : Option Control) (r : Response) (s : JSVal)
    (hj : r.json = some s) (hs : isNullish s = false) :
    (refreshState strNum { c with active := a } (FetchOutcome.resolved r)).rate
      = (if truthy (prop s "rate") then
          numOrNaN (parseInt10 (String.mk (removeFirst '%' (jsToString (prop s "rate")).toList)))
        else c.rate) ∧
    (refreshState strNum { c with active := a } (FetchOutcome.resolved r)).lang
      = (if truthy (prop s "lang") then jsToString (prop s "lang") else c.lang) ∧
    (refreshState strNum { c with active := a } (FetchOutcome.resolved r)).gender
      = (if truthy (prop s "gender") then
          (if strictEqStr (prop s "gender") "male" then "male" else "female")
        else c.gender) ∧
    (refreshState strNum { c with active := a } (FetchOutcome.resolved r)).volume
      = (if isNumber (prop s "volume") then jsToString (prop s "volume") else c.volume) ∧
    (∀ v, s = JSVal.obj (ownEntries s) → getOwn (ownEntries s) "auto_unmute_on_play" = some v →
      (refreshState strNum { c with active := a } (FetchOutcome.resolved r)).autoUnmute
        = truthy v) ∧
    (refreshState strNum { c with active := a } (FetchOutcome.resolved r)).active = a := by
  rw [refreshState_resolved strNum _ r s hj hs]
  have h1 := swapHeader_controls strNum s
    (projectControls s { { c with active := a } with
      state := mergeState ({ c with active := a } : Console).state s })
  have h2 := projectControls_fields s { { c with active := a } with
      state := mergeState ({ c with active := a } : Console).state s }
  refine ⟨h1.1.trans h2.1, h1.2.1.trans h2.2.1, h1.2.2.1.trans h2.2.2.1,
    h1.2.2.2.1.trans h2.2.2.2.1, ?_, h1.2.2.2.2.2.1.trans h2.2.2.2.2.2.1⟩
  intro v hobj hv
  rw [h1.2.2.2.2.1, h2.2.2.2.2.1, hobj]
  simp [prop, get, hv]

/-- Witness of C7: the focused rate slider holding `-30` is set to `-10` by the
snapshot `{rate:"-10%"}`. -/
theorem refresh_overwrites_controls_witness :
    (refreshState id { { initialConsole id with rate := "-30" } with active := some Control.rate }
      (FetchOutcome.resolved
        (Response.mk 200 none (some (JSVal.obj [("rate", JSVal.str "-10%")]))))).rate = "-10" :=
  (refresh_overwrites_controls id { initialConsole id with rate := "-30" } (some Control.rate)
    (Response.mk 200 none (some (JSVal.obj [("rate", JSVal.str "-10%")])))
    (JSVal.obj [("rate", JSVal.str "-10%")]) rfl rfl).1.trans (by decide)

/-- C8 fails on the code: when the state before the refresh has
`auto_unmute_on_play = true` and the snapshot is an object that omits the
field, the merged state keeps `true` but the checkbox is unchecked, because it
is written from the snapshot and not from the merged state. -/
theorem refresh_checkbox_from_snapshot (strNum : String → String) (c : Console)
    (r : Response) (fields : JSObj)
    (hj : r.json = some (JSVal.obj fields)) (hwf : WF c.state)
    (hprior : get c.state "auto_unmute_on_play" = JSVal.bool true)
    (homit : "auto_unmute_on_play" ∉ keys fields) :
    get (refreshState strNum c (FetchOutcome.resolved r)).state "auto_unmute_on_play"
      = JSVal.bool true ∧
    (refreshState strNum c (FetchOutcome.resolved r)).autoUnmute = false := by
  rw [refreshState_resolved strNum c r _ hj rfl]
  have h1 := swapHeader_controls strNum (JSVal.obj fields)
    (projectControls (JSVal.obj fields)
      { c with state := mergeState c.state (JSVal.obj fields) })
  have h2 := projectControls_fields (JSVal.obj fields)
    { c with state := mergeState c.state (JSVal.obj fields) }
  constructor
  · rw [h1.2.2.2.2.2.2, h2.2.2.2.2.2.2]
    have hk : "auto_unmute_on_play" ∉ keys (snapshotEntries (JSVal.obj fields)) := by
      simpa [snapshotEntries, orElse, truthy, ownEntries] using homit
    have := getOwn_mergeState_absent c.state (JSVal.obj fields) _ hwf hk
    simp only [get] at hprior ⊢
    rw [this]
    exact hprior
  · rw [h1.2.2.2.2.1, h2.2.2.2.2.1]
    simp [prop, get, getOwn_absent fields _ homit, truthy]

/-- Witness of C8's failure: initial state (`auto_unmute_on_play: true`),
checkbox checked, snapshot `{volume:60}`. -/
theorem refresh_checkbox_from_snapshot_witness :
    get (refreshState id { initialConsole id with autoUnmute := true }
        (FetchOutcome.resolved (Response.mk 200 none
          (some (JSVal.obj [("volume", JSVal.num 60)]))))).state "auto_unmute_on_play"
      = JSVal.bool true ∧
    (refreshState id { initialConsole id with autoUnmute := true }
        (FetchOutcome.resolved (Response.mk 200 none
          (some (JSVal.obj [("volume", JSVal.num 60)]))))).autoUnmute = false :=
  refresh_checkbox_from_snapshot id { initialConsole id with autoUnmute := true }
    (Response.mk 200 none (some (JSVal.obj [("volume", JSVal.num 60)])))
    [("volume", JSVal.num 60)] rfl (by decide) rfl (by decide)

/-! ## The header fragment -/

theorem toList_append (a b : String) : (a ++ b).toList = a.toList ++ b.toList := by
  cases a; cases b; rfl

theorem dropLit_clash (lit text rest : List Char) (h : clash lit text = true) :
    dropLit lit (text ++ rest) = none := by
  induction lit generalizing text with
  | nil => simp [clash] at h
  | cons c lit ih =>
    cases text with
    | nil => simp [clash] at h
    | cons d text =>
      by_cases hcd : c = d
      · simp only [clash, hcd, if_true] at h
        simp [dropLit, hcd, ih text h]
      · simp [dropLit, hcd]

theorem dropLit_append (lit rest : List Char) : dropLit lit (lit ++ rest) = some rest := by
  induction lit with
  | nil => cases rest <;> rfl
  | cons c lit ih => simp [dropLit, ih]

theorem lazyUntil_bound (close a b : List Char) (hc : close ≠ []) :
    ∃ m, lazyUntil close (a ++ (close ++ b)) = some m ∧ m.length ≤ a.length + close.length := by
  induction a with
  | nil =>
    obtain ⟨c, cs, rfl⟩ := List.exists_cons_of_ne_nil hc
    refine ⟨c :: cs, ?_, by simp⟩
    have := dropLit_append (c :: cs) b
    simp only [List.nil_append, List.cons_append] at this ⊢
    simp [lazyUntil, this]
  | cons x a ih =>
    obtain ⟨m, hm, hlen⟩ := ih
    simp only [List.cons_append, lazyUntil]
    cases hd : dropLit close (x :: (a ++ (close ++ b))) with
    | some r => exact ⟨close, rfl, by simp⟩
    | none =>
      refine ⟨x :: m, by simp [hm], ?_⟩
      simp only [List.length_cons]
      omega

theorem matchStatus_of_at (text m : List Char) (h : matchStatusAt text = some m) :
    matchStatus text = some m := by
  cases text with
  | nil => simpa [matchStatus] using h
  | cons c text => simp [matchStatus, h]

theorem matchStatus_skip (pre text : List Char)
    (h : allClash "<div class=\"status\">".toList pre = true) :
    matchStatus (pre ++ text) = matchStatus text := by
  induction pre with
  | nil => rfl
  | cons c pre ih =>
    simp only [allClash, Bool.and_eq_true] at h
    have hd := dropLit_clash _ (c :: pre) text h.1
    simp only [List.cons_append] at hd ⊢
    simp only [matchStatus, matchStatusAt, hd, ih h.2]

theorem matchStatus_bound (pre a b : List Char)
    (h : allClash "<div class=\"status\">".toList pre = true) :
    ∃ m, matchStatus (pre ++ ("<div class=\"status\">".toList ++ (a ++ ("</div>".toList ++ b))))
        = some ("<div class=\"status\">".toList ++ m) ∧
      m.length ≤ a.length + "</div>".toList.length := by
  obtain ⟨m, hm, hlen⟩ := lazyUntil_bound "</div>".toList a b (by decide)
  refine ⟨m, ?_, hlen⟩
  rw [matchStatus_skip pre _ h]
  apply matchStatus_of_at
  simp only [matchStatusAt, dropLit_append, hm, Option.map_some']

theorem length_eq_toList (a : String) : a.length = a.toList.length := by
  cases a; rfl

theorem html_toList_split (strNum : String → String) (s : JSObj) :
    ∃ a b : List Char,
      (statusRegion strNum s).toList
        = "<div class=\"status\">".toList ++ (a ++ ("</div>".toList ++ b)) ∧
      b ≠ [] := by
  have h0 : statusSeg0 = "<div class=\"status\">"
      ++ "\n          <div class=\"left\">\n            <span class=\"badge\">狀態：" := by decide
  have h3 : statusSeg3 = "%</span>\n            "
      ++ ("</div>" ++ "\n            <span class=\"badge\">音量：") := by decide
  refine ⟨"\n          <div class=\"left\">\n            <span class=\"badge\">狀態：".toList
      ++ (escape (orElse (get s "playing") (JSVal.str "—"))).toList ++ statusSeg1.toList
      ++ (numberText strNum (orElse (get s "progress") (JSVal.num 0))).toList ++ statusSeg2.toList
      ++ (numberText strNum (orElse (get s "progress") (JSVal.num 0))).toList
      ++ "%</span>\n            ".toList,
    "\n            <span class=\"badge\">音量：".toList
      ++ ((numberText strNum (orElse (get s "volume") (JSVal.num 0))).toList ++ (statusSeg4.toList
      ++ ((escape (orElse (get s "rate") (JSVal.str "-"))).toList ++ (statusSeg5.toList
      ++ ((escape (orElse (get s "lang") (JSVal.str "-"))).toList ++ (statusSeg6.toList
      ++ ((escape (orElse (get s "gender") (JSVal.str "-"))).toList ++ (statusSeg7.toList
      ++ ((if truthy (get s "muted") then mutedBadge else "").toList ++ (statusSeg8.toList
      ++ ((if truthy (get s "ngrok_url") then escape (get s "ngrok_url") else "（未啟動）").toList
      ++ statusSeg9.toList))))))))))), ?_, ?_⟩
  · simp only [statusRegion, h0, h3, toList_append, List.append_assoc]
  · intro h
    have := congrArg List.length h
    simp only [List.length_append] at this
    have hl : "\n            <span class=\"badge\">音量：".toList.length = 36 := by decide
    rw [hl] at this
    simp at this

/-- C9 fails on the code: for every state, the fragment that `refreshState`
swaps in for the header is shorter than the status region of the template, so
it is never the whole `<div class="status">` element: the lazy pattern stops at
the first `</div>`, the one closing the progress bar.  For the initial state
the fragment ends after the progress text and holds none of the volume, rate,
language, gender and muted badges nor the address of the tunnel. -/
theorem statusFragment_truncated (strNum : String → String) (s : JSObj) :
    (∃ frag, statusFragment strNum s = some frag ∧
      frag.length < (statusRegion strNum s).length) ∧
    statusFragment strNum s ≠ some (statusRegion strNum s) ∧
    statusFragment id initialState = some "<div class=\"status\">\n          <div class=\"left\">\n            <span class=\"badge\">狀態：idle</span>\n            <div class=\"progress-wrap\">\n              <progress value=\"0\" max=\"100\"></progress>\n              <span class=\"mono\">0%</span>\n            </div>" := by
  have hmain : ∃ frag, statusFragment strNum s = some frag ∧
      frag.length < (statusRegion strNum s).length := by
    obtain ⟨a, b, hsplit, hb⟩ := html_toList_split strNum s
    have hpre : allClash "<div class=\"status\">".toList htmlOpen.toList = true := by decide
    obtain ⟨m, hm, hlen⟩ := matchStatus_bound htmlOpen.toList a (b ++ htmlRest.toList) hpre
    refine ⟨String.mk ("<div class=\"status\">".toList ++ m), ?_, ?_⟩
    · unfold statusFragment html
      rw [toList_append, toList_append, hsplit]
      simp only [List.append_assoc] at hm ⊢
      rw [hm]
      rfl
    · rw [length_eq_toList (statusRegion strNum s), hsplit]
      have hbl : 0 < b.length := List.length_pos.mpr hb
      simp only [String.length, List.length_append] at hlen ⊢
      omega
  refine ⟨hmain, ?_, by rfl⟩
  obtain ⟨frag, hf, hlt⟩ := hmain
  intro h
  rw [hf] at h
  have := Option.some.inj h
  rw [this] at hlt
  exact Nat.lt_irrefl _ hlt

/-! ## Resource lists -/

/-- C11: file delete flow.  For the action `delete` on a non-empty selected
name: when the confirmation is declined, the only effect is the confirmation
dialog, so no delete request is sent and the file list is not reloaded; when it
is accepted and the server answers, whatever the answer, the effects are the
dialog, then one `POST /delete` whose form carries the base name of the file,
then one request of the reload, and the file list is the one `refreshFiles`
renders. -/
theorem fileAction_delete (kbStr : String → String) (sel : FileSelect) (name : String)
    (net : FetchOutcome) (r : Response) (filesResult : Option FilesBody)
    (hname : name ≠ "") :
    fileAction kbStr sel name "delete" false net filesResult
      = ([Effect.confirm ("確定要刪除？\n" ++ name)], sel) ∧
    (fileAction kbStr sel name "delete" false net filesResult).1.countP
      (isFetchOf "POST" "/delete") = 0 ∧
    (fileAction kbStr sel name "delete" false net filesResult).1.countP
      (isFetchOf "GET" "/files") = 0 ∧
    fileAction kbStr sel name "delete" true (FetchOutcome.resolved r) filesResult
      = ([Effect.confirm ("確定要刪除？\n" ++ name),
          Effect.fetch (Request.mk "/delete" "POST"
            [("Content-Type", "application/x-www-form-urlencoded")]
            (Body.form [("name", baseName name)])),
          Effect.fetch filesRequest],
         refreshFiles kbStr sel filesResult) ∧
    (fileAction kbStr sel name "delete" true (FetchOutcome.resolved r) filesResult).1.countP
      (isFetchOf "POST" "/delete") = 1 ∧
    (fileAction kbStr sel name "delete" true (FetchOutcome.resolved r) filesResult).1.countP
      (isFetchOf "GET" "/files") = 1 := by
  have h1 : fileAction kbStr sel name "delete" false net filesResult
      = ([Effect.confirm ("確定要刪除？\n" ++ name)], sel) := by
    simp [fileAction, hname]
  have h2 : fileAction kbStr sel name "delete" true (FetchOutcome.resolved r) filesResult
      = ([Effect.confirm ("確定要刪除？\n" ++ name), Effect.fetch (deleteRequest name),
          Effect.fetch filesRequest], refreshFiles kbStr sel filesResult) := by
    simp [fileAction, hname]
  refine ⟨h1, ?_, ?_, h2, ?_, ?_⟩
  · rw [h1]; rfl
  · rw [h1]; rfl
  · rw [h2]; rfl
  · rw [h2]; rfl

/-- Witness of C11: deleting `music/a.mp3`, declined and accepted. -/
theorem fileAction_delete_witness :
    (fileAction id (FileSelect.mk [FileOption.mk "music/a.mp3" "music/a.mp3  (3 KB)"] (some 0))
        "music/a.mp3" "delete" false (FetchOutcome.rejected "offline") none).1
      = [Effect.confirm "確定要刪除？\nmusic/a.mp3"] ∧
    (fileAction id (FileSelect.mk [FileOption.mk "music/a.mp3" "music/a.mp3  (3 KB)"] (some 0))
        "music/a.mp3" "delete" true
        (FetchOutcome.resolved (Response.mk 500 none none)) none).1
      = [Effect.confirm "確定要刪除？\nmusic/a.mp3",
         Effect.fetch (Request.mk "/delete" "POST"
            [("Content-Type", "application/x-www-form-urlencoded")]
            (Body.form [("name", "a.mp3")])),
         Effect.fetch filesRequest] :=
  ⟨congrArg Prod.fst (fileAction_delete id
      (FileSelect.mk [FileOption.mk "music/a.mp3" "music/a.mp3  (3 KB)"] (some 0))
      "music/a.mp3" (FetchOutcome.rejected "offline") (Response.mk 500 none none) none
      (by decide)).1,
   congrArg Prod.fst (fileAction_delete id
      (FileSelect.mk [FileOption.mk "music/a.mp3" "music/a.mp3  (3 KB)"] (some 0))
      "music/a.mp3" (FetchOutcome.rejected "offline") (Response.mk 500 none none) none
      (by decide)).2.2.2.1⟩

/-- The placeholder of `refreshFiles`: for every `/files` result that is absent
(the body is `null` or another falsy value, `ok` is falsy, or `files` is not a
list), the file list rendered consists of exactly one row, the placeholder,
whose value is empty. -/
theorem refreshFiles_placeholder (kbStr : String → String) (sel : FileSelect) (b : FilesBody)
    (habsent : truthy b.j = false ∨ truthy (prop b.j "ok") = false ∨ b.files = none) :
    refreshFiles kbStr sel (some b)
      = FileSelect.mk [FileOption.mk "" "（無檔案）"] (some 0) ∧
    (refreshFiles kbStr sel (some b)).options.length = 1 ∧
    (refreshFiles kbStr sel (some b)).value = "" := by
  have h : refreshFiles kbStr sel (some b)
      = FileSelect.mk [FileOption.mk "" "（無檔案）"] (some 0) := by
    rcases habsent with hj | hok | hf
    · simp [refreshFiles, hj, appendOption, noFilesRow]
    · simp [refreshFiles, hok, appendOption, noFilesRow]
    · simp only [refreshFiles, hf]
      split_ifs <;> simp [appendOption, noFilesRow]
  refine ⟨h, ?_, ?_⟩
  · rw [h]; rfl
  · rw [h]; rfl

/-- Example of the placeholder: the bodies `null`, `{ok:false}` and `{ok:true}`
without a list each render the single placeholder row. -/
theorem refreshFiles_placeholder_witness :
    refreshFiles id (FileSelect.mk [FileOption.mk "a.mp3" "a.mp3  (3 KB)"] (some 0))
        (some (FilesBody.mk JSVal.null none))
      = FileSelect.mk [FileOption.mk "" "（無檔案）"] (some 0) ∧
    refreshFiles id (FileSelect.mk [] none)
        (some (FilesBody.mk (JSVal.obj [("ok", JSVal.bool false)]) (some [])))
      = FileSelect.mk [FileOption.mk "" "（無檔案）"] (some 0) ∧
    refreshFiles id (FileSelect.mk [] none)
        (some (FilesBody.mk (JSVal.obj [("ok", JSVal.bool true)]) none))
      = FileSelect.mk [FileOption.mk "" "（無檔案）"] (some 0) :=
  ⟨(refreshFiles_placeholder id
      (FileSelect.mk [FileOption.mk "a.mp3" "a.mp3  (3 KB)"] (some 0))
      (FilesBody.mk JSVal.null none) (Or.inl rfl)).1,
   (refreshFiles_placeholder id (FileSelect.mk [] none)
      (FilesBody.mk (JSVal.obj [("ok", JSVal.bool false)]) (some []))
      (Or.inr (Or.inl rfl))).1,
   (refreshFiles_placeholder id (FileSelect.mk [] none)
      (FilesBody.mk (JSVal.obj [("ok", JSVal.bool true)]) none)
      (Or.inr (Or.inr rfl))).1⟩

/-- C12 fails on the code: for every `/files` result that is ok with an empty
list of files, `refreshFiles` clears the file list and adds no row, so the
control is left empty, with no placeholder and nothing selected. -/
theorem refreshFiles_empty_list (kbStr : String → String) (sel : FileSelect) (b : FilesBody)
    (hj : truthy b.j = true) (hok : truthy (prop b.j "ok") = true)
    (hfiles : b.files = some []) :
    refreshFiles kbStr sel (some b) = FileSelect.mk [] none ∧
    (refreshFiles kbStr sel (some b)).options.length = 0 := by
  have h : refreshFiles kbStr sel (some b) = FileSelect.mk [] none := by
    simp [refreshFiles, hj, hok, hfiles, appendRows, FileSelect.value]
  exact ⟨h, by rw [h]; rfl⟩

/-- Witness of C12's failure: the answer `{ok:true, files:[]}`. -/
theorem refreshFiles_empty_list_witness :
    refreshFiles id (FileSelect.mk [FileOption.mk "a.mp3" "a.mp3  (3 KB)"] (some 0))
        (some (FilesBody.mk (JSVal.obj [("ok", JSVal.bool true)]) (some [])))
      = FileSelect.mk [] none :=
  (refreshFiles_empty_list id (FileSelect.mk [FileOption.mk "a.mp3" "a.mp3  (3 KB)"] (some 0))
    (FilesBody.mk (JSVal.obj [("ok", JSVal.bool true)]) (some [])) rfl rfl rfl).1

/-- C13: upload validation.  When no local file is selected, `upload` performs
one effect, the validation notice: no request is sent, to `/upload` or to
`/files`, and the file list is left as it was. -/
theorem upload_without_file (kbStr : String → String) (jsonMsg nullMsg : String)
    (sel : FileSelect) (net : FetchOutcome) (filesResult : Option FilesBody) :
    upload kbStr jsonMsg nullMsg sel none net filesResult
      = ([Effect.alert "請先選取 .mp3 檔案"], sel) ∧
    (upload kbStr jsonMsg nullMsg sel none net filesResult).1.countP isFetch = 0 ∧
    (upload kbStr jsonMsg nullMsg sel none net filesResult).1.countP isAlert = 1 ∧
    (upload kbStr jsonMsg nullMsg sel none net filesResult).2 = sel :=
  ⟨rfl, rfl, rfl, rfl⟩

/-! ## Escaping -/

theorem foldl_append_toList (l : List String) (acc : String) :
    (l.foldl (fun r s => r ++ s) acc).toList = acc.toList ++ l.flatMap String.toList := by
  induction l generalizing acc with
  | nil => simp
  | cons s l ih =>
    rw [List.foldl_cons, ih, toList_append]
    simp [List.flatMap_cons, List.append_assoc]

theorem escape_toList (v : JSVal) :
    (escape v).toList = (jsToString v).toList.flatMap (fun c => (escapeChar c).toList) := by
  unfold escape String.join
  rw [foldl_append_toList]
  simp [List.flatMap_map]

theorem escapeChar_cases (c : Char) :
    (isSpecial c = false ∧ (escapeChar c).toList = [c]) ∨
    (escapeChar c).toList = "&amp;".toList ∨ (escapeChar c).toList = "&lt;".toList ∨
    (escapeChar c).toList = "&gt;".toList ∨ (escapeChar c).toList = "&quot;".toList ∨
    (escapeChar c).toList = "&#39;".toList := by
  unfold escapeChar
  by_cases h1 : c = '&'
  · simp [h1]
  by_cases h2 : c = '<'
  · simp [h1, h2]
  by_cases h3 : c = '>'
  · simp [h1, h2, h3]
  by_cases h4 : c.toNat = 34
  · simp [h1, h2, h3, h4]
  by_cases h5 : c.toNat = 39
  · simp [h1, h2, h3, h4, h5]
  left
  simp [h1, h2, h3, h4, h5, isSpecial, isDelimiter, String.singleton]

theorem escapeChar_no_delimiter (c d : Char) (h : d ∈ (escapeChar c).toList) :
    isDelimiter d = false := by
  rcases escapeChar_cases c with ⟨hs, he⟩ | he | he | he | he | he
  · rw [he] at h
    simp only [List.mem_singleton] at h
    subst h
    simp only [isSpecial, Bool.or_eq_false_iff] at hs
    exact hs.2
  all_goals
    rw [he] at h
    revert d
    decide

theorem entitiesOnly_block (c : Char) (rest : List Char) (h : entitiesOnly rest = true) :
    entitiesOnly ((escapeChar c).toList ++ rest) = true := by
  rcases escapeChar_cases c with ⟨hs, he⟩ | he | he | he | he | he
  · rw [he]
    have hne : (c != '&') = true := by
      simp only [isSpecial, Bool.or_eq_false_iff] at hs
      simpa [bne] using hs.1
    simp [entitiesOnly, hne, h]
  all_goals
    rw [he]
    simp [entitiesOnly, startsWithEntity, dropLit, h]

theorem entitiesOnly_flatMap (cs : List Char) :
    entitiesOnly (cs.flatMap (fun c => (escapeChar c).toList)) = true := by
  induction cs with
  | nil => rfl
  | cons c cs ih =>
    rw [List.flatMap_cons]
    exact entitiesOnly_block c _ ih

theorem entitiesOnly_split (text pre post : List Char) (h : entitiesOnly text = true)
    (hs : text = pre ++ '&' :: post) : startsWithEntity post = true := by
  induction pre generalizing text with
  | nil =>
    subst hs
    simpa [entitiesOnly] using (Bool.and_eq_true _ _ ▸ h : _ ∧ _).1
  | cons x pre ih =>
    subst hs
    simp only [List.cons_append, entitiesOnly, Bool.and_eq_true] at h
    exact ih _ h.2 rfl

theorem flatMap_escapeChar_plain (cs : List Char) (h : ∀ c ∈ cs, isSpecial c = false) :
    cs.flatMap (fun c => (escapeChar c).toList) = cs := by
  induction cs with
  | nil => rfl
  | cons c cs ih =>
    rw [List.flatMap_cons, ih (fun d hd => h d (List.mem_cons_of_mem _ hd))]
    rcases escapeChar_cases c with ⟨_, he⟩ | he | he | he | he | he
    · rw [he]; rfl
    all_goals
      exfalso
      have hc := h c (List.mem_cons_self _ _)
      unfold escapeChar at he
      simp only [isSpecial, isDelimiter, Bool.or_eq_false_iff, beq_eq_false_iff_ne, ne_eq] at hc
      obtain ⟨h1, ⟨⟨h2, h3⟩, h4⟩, h5⟩ := hc
      simp [h1, h2, h3, h4, h5, String.singleton] at he

theorem escape_no_delimiter (w : JSVal) : ∀ c ∈ (escape w).toList, isDelimiter c = false := by
  intro c hc
  rw [escape_toList, List.mem_flatMap] at hc
  obtain ⟨d, _, hd⟩ := hc
  exact escapeChar_no_delimiter d c hd

theorem filter_escape (w : JSVal) : (escape w).toList.filter isDelimiter = [] := by
  rw [List.filter_eq_nil_iff]
  intro c hc
  rw [escape_no_delimiter w c hc]
  exact Bool.false_ne_true

theorem get_set_other (o : JSObj) (k k' : String) (v : JSVal) (h : k ≠ k') :
    get (set o k v) k' = get o k' := by
  simp only [get, getOwn_set_other o k k' v h]

theorem delimiters_statusRegion (strNum : String → String) (s : JSObj) :
    (statusRegion strNum s).toList.filter isDelimiter
      = statusSeg0.toList.filter isDelimiter ++ (statusSeg1.toList.filter isDelimiter
        ++ ((numberText strNum (orElse (get s "progress") (JSVal.num 0))).toList.filter isDelimiter
        ++ (statusSeg2.toList.filter isDelimiter
        ++ ((numberText strNum (orElse (get s "progress") (JSVal.num 0))).toList.filter isDelimiter
        ++ (statusSeg3.toList.filter isDelimiter
        ++ ((numberText strNum (orElse (get s "volume") (JSVal.num 0))).toList.filter isDelimiter
        ++ (statusSeg4.toList.filter isDelimiter ++ (statusSeg5.toList.filter isDelimiter
        ++ (statusSeg6.toList.filter isDelimiter ++ (statusSeg7.toList.filter isDelimiter
        ++ ((if truthy (get s "muted") then mutedBadge else "").toList.filter isDelimiter
        ++ (statusSeg8.toList.filter isDelimiter
        ++ statusSeg9.toList.filter isDelimiter)))))))))))) := by
  have hng : (if truthy (get s "ngrok_url") then escape (get s "ngrok_url")
      else "（未啟動）").toList.filter isDelimiter = [] := by
    split_ifs
    · exact filter_escape _
    · decide
  simp only [statusRegion, toList_append, List.filter_append, filter_escape, hng,
    List.append_assoc, List.nil_append, List.append_nil]

theorem delimiters_html_congr (strNum : String → String) (s t : JSObj)
    (hp : get s "progress" = get t "progress") (hv : get s "volume" = get t "volume")
    (hm : get s "muted" = get t "muted") :
    (html strNum s).toList.filter isDelimiter = (html strNum t).toList.filter isDelimiter := by
  unfold html
  rw [toList_append, toList_append, toList_append, toList_append, List.filter_append,
    List.filter_append, List.filter_append, List.filter_append,
    delimiters_statusRegion, delimiters_statusRegion, hp, hv, hm]

/-- C16: `escape` neutralises markup.  For every value, and so for every
string, the text `escape` returns holds none of `<`, `>`, `"` and the
apostrophe, and every `&` in it begins one of `&amp;`, `&lt;`, `&gt;`, `&quot;`,
`&#39;`; a string with none of the five characters is returned as it is; hence
whatever value the state holds in `playing`, `rate`, `lang`, `gender` or
`ngrok_url`, the markup `html` returns has the same tag and attribute
delimiters: the field brings in none. -/
theorem escape_neutralises (v : JSVal) (s : String) :
    (∀ c ∈ (escape v).toList, isDelimiter c = false) ∧
    (∀ pre post, (escape v).toList = pre ++ '&' :: post → startsWithEntity post = true) ∧
    ((∀ c ∈ s.toList, isSpecial c = false) → escape (JSVal.str s) = s) ∧
    (∀ (strNum : String → String) (state : JSObj) (field : String),
      field ∈ ["playing", "rate", "lang", "gender", "ngrok_url"] →
      (html strNum (set state field v)).toList.filter isDelimiter
        = (html strNum state).toList.filter isDelimiter) := by
  refine ⟨escape_no_delimiter v, ?_, ?_, ?_⟩
  · intro pre post hsplit
    refine entitiesOnly_split _ pre post ?_ hsplit
    rw [escape_toList]
    exact entitiesOnly_flatMap _
  · intro hplain
    have h := escape_toList (JSVal.str s)
    rw [show jsToString (JSVal.str s) = s from rfl, flatMap_escapeChar_plain _ hplain] at h
    cases hs : escape (JSVal.str s) with
    | mk data =>
      cases s with
      | mk sdata =>
        rw [hs] at h
        simp only [String.toList] at h
        rw [h]
  · intro strNum state field hf
    have hne : field ≠ "progress" ∧ field ≠ "volume" ∧ field ≠ "muted" := by
      simp only [List.mem_cons, List.mem_singleton, List.not_mem_nil, or_false] at hf
      rcases hf with rfl | rfl | rfl | rfl | rfl <;> decide
    exact delimiters_html_congr strNum _ _ (get_set_other state field _ v hne.1)
      (get_set_other state field _ v hne.2.1) (get_set_other state field _ v hne.2.2)

/-- Witness of C16: `escape` on `<b a="1">Tom & Jerry</b>` and on a plain file
name, and the header with a tag written in the field `playing`. -/
theorem escape_neutralises_witness :
    escape (JSVal.str "<b a=\"1\">Tom & Jerry</b>")
      = "&lt;b a=&quot;1&quot;&gt;Tom &amp; Jerry&lt;/b&gt;" ∧
    startsWithEntity "amp; Jerry&lt;/b&gt;".toList = true ∧
    escape (JSVal.str "lesson-1.mp3") = "lesson-1.mp3" ∧
    (html id (set initialState "playing" (JSVal.str "<b a=\"1\">Tom & Jerry</b>"))).toList.filter
        isDelimiter
      = (html id initialState).toList.filter isDelimiter :=
  ⟨by decide,
   (escape_neutralises (JSVal.str "<b a=\"1\">Tom & Jerry</b>") "lesson-1.mp3").2.1
      "&lt;b a=&quot;1&quot;&gt;Tom ".toList "amp; Jerry&lt;/b&gt;".toList (by decide),
   (escape_neutralises (JSVal.str "<b a=\"1\">Tom & Jerry</b>") "lesson-1.mp3").2.2.1
      (by decide),
   (escape_neutralises (JSVal.str "<b a=\"1\">Tom & Jerry</b>") "lesson-1.mp3").2.2.2
      id initialState "playing" (by decide)⟩

end UDPConsole

namespace OfflineShell

/-! ## Offline shell -/

/-- C14: offline shell variant A.  For every `GET` request, when the network
fetch fails the listener responds with the fixed unavailable response of status
503, and when it succeeds it responds with the network response unchanged; for
every request of another method it does not respond and the request passes
through. -/
theorem fetchListenerA_outcome (req : Req) (r : Resp) :
    (req.method = "GET" → fetchListenerA req none
      = Reply.respond (Resp.mk 503 "Service Unavailable" "請檢查網路連線 (Network Error)")) ∧
    (req.method = "GET" → fetchListenerA req (some r) = Reply.respond r) ∧
    (req.method ≠ "GET" → ∀ net, fetchListenerA req net = Reply.passThrough) := by
  refine ⟨?_, ?_, ?_⟩
  · intro h
    simp [fetchListenerA, h, unavailable]
  · intro h
    simp [fetchListenerA, h]
  · intro h net
    simp [fetchListenerA, h]

/-- Witness of C14: a `GET` of the console page with the network down, with the
network up, and a `POST`. -/
theorem fetchListenerA_outcome_witness :
    fetchListenerA (Req.mk "GET" "https://host/static/ui/index.html") none
      = Reply.respond (Resp.mk 503 "Service Unavailable" "請檢查網路連線 (Network Error)") ∧
    fetchListenerA (Req.mk "GET" "https://host/static/ui/index.html")
        (some (Resp.mk 200 "OK" "<html></html>"))
      = Reply.respond (Resp.mk 200 "OK" "<html></html>") ∧
    fetchListenerA (Req.mk "POST" "https://host/cmd") none = Reply.passThrough :=
  ⟨(fetchListenerA_outcome (Req.mk "GET" "https://host/static/ui/index.html")
      (Resp.mk 200 "OK" "<html></html>")).1 rfl,
   (fetchListenerA_outcome (Req.mk "GET" "https://host/static/ui/index.html")
      (Resp.mk 200 "OK" "<html></html>")).2.1 rfl,
   (fetchListenerA_outcome (Req.mk "POST" "https://host/cmd")
      (Resp.mk 200 "OK" "<html></html>")).2.2 (by decide) none⟩

/-- C15 as stated fails: variant B has no test on the method, and a `POST` to an
address without `/api/` is answered by the listener with the network response. -/
theorem fetchListenerB_counterexample :
    ¬ (∀ (cache : Cache) (req : Req) (net : Option Resp),
        (req.method ≠ "GET" ∨ includes "/api/".toList req.url.toList = true) →
        (fetchListenerB cache req net).1 = Reply.passThrough ∧
        (fetchListenerB cache req net).2 = cache) := by
  intro h
  have h1 := (h [] (Req.mk "POST" "https://host/submit") (some (Resp.mk 200 "OK" "done"))
    (Or.inl (by decide))).1
  revert h1
  decide

theorem cachePut_of_not_get (cache : Cache) (req : Req) (r : Resp) (h : req.method ≠ "GET") :
    cachePut cache req r = cache := by
  unfold cachePut
  rw [if_neg (fun hc => h hc.1)]

theorem fetchListenerB_api (cache : Cache) (req : Req) (net : Option Resp)
    (h : includes "/api/".toList req.url.toList = true) :
    fetchListenerB cache req net = (Reply.passThrough, cache) := by
  unfold fetchListenerB
  rw [if_pos h]

theorem fetchListenerB_some (cache : Cache) (req : Req) (r : Resp)
    (h : includes "/api/".toList req.url.toList = false) :
    fetchListenerB cache req (some r)
      = (Reply.respond r, if r.status = 200 then cachePut cache req r else cache) := by
  unfold fetchListenerB
  rw [if_neg (by rw [h]; exact Bool.false_ne_true)]

theorem fetchListenerB_none (cache : Cache) (req : Req)
    (h : includes "/api/".toList req.url.toList = false) :
    (fetchListenerB cache req none).2 = cache := by
  unfold fetchListenerB
  rw [if_neg (by rw [h]; exact Bool.false_ne_true)]
  cases cacheMatch cache req <;> rfl

/-- C15, amended: variant B intercepts every request whose address does not
contain `/api/`, whatever its method.  For every request whose address contains
`/api/` the listener does not respond and leaves the cache as it is; for every
other request whose fetch succeeds it responds with the network response; for
every request whose method is not `GET` the cache is left as it is; and the
cache changes only for a `GET` request without `/api/` whose fetch succeeded,
with status 200. -/
theorem fetchListenerB_outcome (cache : Cache) (req : Req) (net : Option Resp) :
    (includes "/api/".toList req.url.toList = true →
      fetchListenerB cache req net = (Reply.passThrough, cache)) ∧
    (includes "/api/".toList req.url.toList = false → ∀ r, net = some r →
      (fetchListenerB cache req net).1 = Reply.respond r) ∧
    (req.method ≠ "GET" → (fetchListenerB cache req net).2 = cache) ∧
    ((fetchListenerB cache req net).2 ≠ cache →
      req.method = "GET" ∧ includes "/api/".toList req.url.toList = false ∧
      ∃ r, net = some r ∧ r.status = 200) := by
  have hstore : (fetchListenerB cache req net).2 ≠ cache →
      req.method = "GET" ∧ includes "/api/".toList req.url.toList = false ∧
      ∃ r, net = some r ∧ r.status = 200 := by
    intro hne
    rcases Bool.eq_false_or_eq_true (includes "/api/".toList req.url.toList) with hapi | hapi
    · exact absurd (by rw [fetchListenerB_api cache req net hapi]) hne
    · cases net with
      | none => exact absurd (fetchListenerB_none cache req hapi) hne
      | some r =>
        rw [fetchListenerB_some cache req r hapi] at hne
        by_cases hst : r.status = 200
        · by_cases hm : req.method = "GET"
          · exact ⟨hm, hapi, r, rfl, hst⟩
          · exact absurd (by simp only [hst, if_true, cachePut_of_not_get _ _ _ hm]) hne
        · exact absurd (by simp only [hst, if_false]) hne
  refine ⟨fetchListenerB_api cache req net, ?_, ?_, hstore⟩
  · intro h r hr
    subst hr
    rw [fetchListenerB_some cache req r h]
  · intro hm
    by_contra hne
    exact hm (hstore hne).1

/-- Witness of C15: a request to `/api/` passes through, a `POST` elsewhere is
answered from the network and stores nothing, a `GET` answered with status 200
is stored. -/
theorem fetchListenerB_outcome_witness :
    fetchListenerB [] (Req.mk "GET" "https://host/api/fate") (some (Resp.mk 200 "OK" "data"))
      = (Reply.passThrough, []) ∧
    fetchListenerB [] (Req.mk "POST" "https://host/submit") (some (Resp.mk 200 "OK" "done"))
      = (Reply.respond (Resp.mk 200 "OK" "done"), []) ∧
    fetchListenerB [] (Req.mk "GET" "https://host/fate.html") (some (Resp.mk 200 "OK" "page"))
      = (Reply.respond (Resp.mk 200 "OK" "page"),
         [(Req.mk "GET" "https://host/fate.html", Resp.mk 200 "OK" "page")]) :=
  ⟨(fetchListenerB_outcome [] (Req.mk "GET" "https://host/api/fate")
      (some (Resp.mk 200 "OK" "data"))).1 (by decide),
   Prod.ext
    ((fetchListenerB_outcome [] (Req.mk "POST" "https://host/submit")
      (some (Resp.mk 200 "OK" "done"))).2.1 (by decide) _ rfl)
    ((fetchListenerB_outcome [] (Req.mk "POST" "https://host/submit")
      (some (Resp.mk 200 "OK" "done"))).2.2.1 (by decide)),
   by decide⟩

end OfflineShell
